import Mathlib

/-!
terraform-provider-awx: credential lookup, job-template credential association, survey

A shallow embedding of three files of the provider

* `awx/data_source_credential.go`
* `awx/resource_job_template_credential.go`
* `awx/resource_survey.go`

Go `int` is embedded as `Int`, Go `string` as `String`, a Go `interface{}` holding a
primitive as `Value`.  The upstream AWX client is a record of step functions over an
arbitrary server state `σ`; every operation returns the diagnostics, the resource data,
the server state and the list of upstream calls it issued, in order.
-/

namespace Awx

/-! ## Values, diagnostics, errors -/

/-- A Go `interface{}` holding `nil`, an `int`, a `string` or a `bool`. -/
inductive Value where
  | null : Value
  | int (n : Int) : Value
  | str (s : String) : Value
  | bool (b : Bool) : Value
  deriving DecidableEq, Repr

/-- The type assertion `.(int)` on a value read with `d.Get` from a `TypeInt` attribute:
the schema reader yields the zero value when the attribute holds no integer. -/
def Value.asInt : Value → Int
  | .int n => n
  | _ => 0

/-- The type assertion `.(string)` on a value read with `d.Get` from a `TypeString`
attribute. -/
def Value.asString : Value → String
  | .str s => s
  | _ => ""

/-- The second result of `d.GetOk`: the attribute is set to something other than the zero
value of its type. -/
def Value.isSet : Value → Bool
  | .null => false
  | .int n => n != 0
  | .str s => s != ""
  | .bool b => b

/-- The call `d.Set(key, value)` on a `TypeInt` attribute that holds `old`: what the
attribute holds after the call. An `int` is written and `nil` removes the value; a value
of another type is rejected, the call returns an error and the attribute keeps what it
held. The provider drops the error at every such call. -/
def SetTypeInt (old value : Value) : Value :=
  match value with
  | .int n => .int n
  | .null => .null
  | _ => old

/-- The call `d.Set(key, value)` on a `TypeString` attribute that holds `old`: what the
attribute holds after the call. A `string` is written and `nil` removes the value; a value
of another type is rejected, the call returns an error and the attribute keeps what it
held. The provider drops the error at every such call. -/
def SetTypeString (old value : Value) : Value :=
  match value with
  | .str s => .str s
  | .null => .null
  | _ => old

/-- A call `fmt.Sprintf(format, args...)` (or `fmt.Errorf`), kept as the format string and
its arguments. -/
structure Formatted where
  format : String
  args : List Value
  deriving DecidableEq, Repr

/-- The severities of `diag.Diagnostic`. -/
inductive Severity where
  | Error : Severity
  | Warning : Severity
  deriving DecidableEq, Repr

/-- One `diag.Diagnostic`: severity, summary and detail. -/
structure Diagnostic where
  Severity : Severity
  Summary : String
  Detail : Formatted
  deriving DecidableEq, Repr

/-- The Go type `diag.Diagnostics`. -/
abbrev Diagnostics := List Diagnostic

/-- The method `diag.Diagnostics.HasError`: some diagnostic has severity `Error`. -/
def HasError (diags : Diagnostics) : Bool :=
  diags.any (fun x => decide (x.Severity = Severity.Error))

/-- A Go `error` returned by the upstream client. The provider only tests it against `nil`
and reads its message; `NotFound` marks the errors by which the server reports that the
object is absent. -/
inductive error where
  | NotFound (msg : String) : error
  | Other (msg : String) : error
  deriving DecidableEq, Repr

/-- The method `Error()` of a Go `error`. -/
def error.Error : error → String
  | .NotFound msg => msg
  | .Other msg => msg

/-- Modelled from the spec: `buildDiagnosticsMessage` (the provider's `utils.go`, absent
here). "Every fatal condition produces a structured diagnostic with a short summary and a
detail string": one `Error` diagnostic with the given summary and the formatted detail. -/
def buildDiagnosticsMessage (diagSummary diagDetails : String) (detailsVars : List Value) :
    Diagnostics :=
  [⟨Severity.Error, diagSummary, ⟨diagDetails, detailsVars⟩⟩]

/-- Modelled from the spec: `buildDiagNotFoundFail` (the provider's `utils.go`, absent
here). The failure is "wrapped as a not-found diagnostic"; the wording is not specified,
so the diagnostic records the three arguments. -/
def buildDiagNotFoundFail (tfMethode : String) (id : Int) (err : error) : Diagnostics :=
  buildDiagnosticsMessage "NotFound" "%s %d %s"
    [Value.str tfMethode, Value.int id, Value.str err.Error]

/-- Modelled from the spec: `buildDiagDeleteFail` (the provider's `utils.go`, absent here).
A failed delete "surfaces as DisassociateFailed"/"DeleteFailed"; the wording is not
specified, so the diagnostic records the two arguments. -/
def buildDiagDeleteFail (tfMethode details : String) : Diagnostics :=
  buildDiagnosticsMessage "DeleteFailed" "%s %s" [Value.str tfMethode, Value.str details]

/-! ## `strconv` and `strings` -/

/-- The decimal digits of `n`, most significant first, prepended to `acc`; `fuel` bounds
the number of digits. -/
def natDigits : Nat → Nat → List Char → List Char
  | 0, _, acc => acc
  | fuel + 1, n, acc =>
    if n / 10 = 0 then Nat.digitChar (n % 10) :: acc
    else natDigits fuel (n / 10) (Nat.digitChar (n % 10) :: acc)

/-- The characters of `strconv.Itoa n`, also what the verb `%d` prints. -/
def itoaChars : Int → List Char
  | Int.ofNat m => natDigits (m + 1) m []
  | Int.negSucc m => '-' :: natDigits (m + 2) (m + 1) []

/-- The function `strconv.Itoa`. -/
def Itoa (n : Int) : String := String.mk (itoaChars n)

/-- The value of a run of decimal digits read after the value `acc`; `none` when a
character is no digit. -/
def parseDigits : List Char → Nat → Option Nat
  | [], acc => some acc
  | c :: cs, acc =>
    if c.isDigit then parseDigits cs (10 * acc + (c.toNat - 48)) else none

/-- A non-empty run of decimal digits. -/
def parseNat (cs : List Char) : Option Nat :=
  if cs = [] then none else parseDigits cs 0

/-- Modelled from the spec: the parsing step of `convertStrToNumeric` and
`convertStateIDToNummeric` (the provider's `utils.go`, absent here). A segment must "parse
as a numeric id": an optional sign followed by at least one decimal digit, as
`strconv.Atoi` reads it. -/
def parseInt (s : String) : Option Int :=
  match s.toList with
  | '-' :: cs => (parseNat cs).map (fun (n : Nat) => - (n : Int))
  | '+' :: cs => (parseNat cs).map (fun (n : Nat) => (n : Int))
  | cs => (parseNat cs).map (fun (n : Nat) => (n : Int))

/-- Modelled from the spec: `convertStrToNumeric` (the provider's `utils.go`, absent here).
Returns the number and no diagnostics when the string is numeric, an error diagnostic
otherwise. -/
def convertStrToNumeric (operation : String) (str : String) : Int × Diagnostics :=
  match parseInt str with
  | some n => (n, [])
  | none => (0, buildDiagnosticsMessage operation "Value %s is not numeric" [Value.str str])

/-- The pieces of a character list between the occurrences of `sep`. -/
def splitChars (sep : Char) : List Char → List (List Char)
  | [] => [[]]
  | c :: cs =>
    if c = sep then [] :: splitChars sep cs
    else
      match splitChars sep cs with
      | [] => [[c]]
      | piece :: pieces => (c :: piece) :: pieces

/-- The function `strings.Split` for a one-character separator: as many pieces as there
are separators, plus one. -/
def Split (s : String) (sep : Char) : List String :=
  (splitChars sep s.toList).map String.mk

/-! ## The upstream client -/

/-- The Go type `map[string]string` of query parameters, as the list of its entries. -/
abbrev Params := List (String × String)

/-- The Go type `map[string]interface{}` of a request payload, as the list of its entries. -/
abbrev Payload := List (String × Value)

/-- The index expression `m[key]` on a `map[string]interface{}`: `nil` for a missing key. -/
def Payload.index (m : Payload) (key : String) : Value :=
  match m.find? (fun kv => kv.1 == key) with
  | some kv => kv.2
  | none => Value.null

/-- The fields of the client type `awx.Credential` that the provider reads. -/
structure Credential where
  ID : Int
  Name : String
  Kind : String
  Inputs : Payload
  deriving DecidableEq, Repr

/-- The field of the client type `awx.JobTemplate` that the provider reads. -/
structure JobTemplate where
  ID : Int
  deriving DecidableEq, Repr

/-- Modelled from the spec: the client type `awx.SurveySpec` (declared in the client
library, absent here), one question with the attributes "name, description, required,
variable, type, min, max, default, choices", each field decoded from the schema key of the
same attribute. -/
structure SurveySpec where
  QuestionName : String
  QuestionDescription : String
  Required : Bool
  Variable : String
  Type_ : String
  Min : Int
  Max : Int
  Default : String
  Choices : String
  deriving DecidableEq, Repr

/-- The client type `awx.Survey`, as `resourceSurveyCreate` builds it. -/
structure Survey where
  Name : String
  Description : String
  Spec : List SurveySpec
  deriving DecidableEq, Repr

/-- One call of the upstream client, with its arguments. -/
inductive Call where
  | CredentialsList (params : Params) : Call
  | GetJobTemplateByID (id : Int) (params : Params) : Call
  | AssociateCredentials (id : Int) (data : Payload) (params : Params) : Call
  | DisAssociateCredentials (id : Int) (data : Payload) (params : Params) : Call
  | ListCredentials (id : Int) (params : Params) : Call
  | PostSurvey (id : Int) (data : Survey) (params : Params) : Call
  | GetSurveyByJobTemplateId (id : Int) (params : Params) : Call
  | DeleteSurvey (id : Int) : Call
  deriving DecidableEq, Repr

/-- The methods of `client.CredentialsService` that the provider calls, as steps on the
server state `σ`. -/
structure CredentialsService (σ : Type) where
  ListCredentials : Params → σ → Except error (List Credential) × σ

/-- The methods of `client.JobTemplateService` that the provider calls, as steps on the
server state `σ`. -/
structure JobTemplateService (σ : Type) where
  GetJobTemplateByID : Int → Params → σ → Except error JobTemplate × σ
  AssociateCredentials : Int → Payload → Params → σ → Except error Unit × σ
  DisAssociateCredentials : Int → Payload → Params → σ → Except error Unit × σ
  ListCredentials : Int → Params → σ → Except error (List Credential) × σ
  PostSurvey : Int → Survey → Params → σ → Except error Unit × σ
  GetSurveyByJobTemplateId : Int → Params → σ → Except error Survey × σ
  DeleteSurvey : Int → σ → Except error Unit × σ

/-- The client `*awx.AWX` passed to every operation as `m`. -/
structure AWX (σ : Type) where
  CredentialsService : CredentialsService σ
  JobTemplateService : JobTemplateService σ

/-- What an operation leaves behind: the diagnostics it returns, the resource data `d`,
the server state, and the upstream calls it issued, in order. -/
structure Outcome (σ δ : Type) where
  diags : Diagnostics
  d : δ
  server : σ
  calls : List Call

/-! ## `resource_job_template_credential.go` -/

/-- The resource data of `awx_job_template_credentials`: the identity (`d.Id`, `d.SetId`)
and the two attributes of its schema, both `TypeInt`. -/
structure JobTemplateCredentialsData where
  Id : String
  job_template_id : Value
  credential_id : Value
  deriving DecidableEq, Repr

/-- The function `resourceJobTemplateCredentialsCreate`. -/
def resourceJobTemplateCredentialsCreate {σ : Type} (m : AWX σ)
    (d : JobTemplateCredentialsData) (s : σ) : Outcome σ JobTemplateCredentialsData :=
  let awxService := m.JobTemplateService
  let jobTemplateID := d.job_template_id.asInt
  let credentialID := d.credential_id.asInt
  match awxService.GetJobTemplateByID jobTemplateID [] s with
  | (Except.error err, s1) =>
    ⟨buildDiagNotFoundFail "job template" jobTemplateID err, d, s1,
      [Call.GetJobTemplateByID jobTemplateID []]⟩
  | (Except.ok _, s1) =>
    match awxService.AssociateCredentials jobTemplateID [("id", Value.int credentialID)] []
        s1 with
    | (Except.error err, s2) =>
      ⟨buildDiagnosticsMessage "Create: JobTemplate not AssociateCredentials"
          "Fail to add credentials with Id %v, for Template ID %v, got error: %s"
          [Value.int credentialID, Value.int jobTemplateID, Value.str err.Error],
        d, s2,
        [Call.GetJobTemplateByID jobTemplateID [],
         Call.AssociateCredentials jobTemplateID [("id", Value.int credentialID)] []]⟩
    | (Except.ok _, s2) =>
      ⟨[], { d with Id := Itoa jobTemplateID ++ "-" ++ Itoa credentialID }, s2,
        [Call.GetJobTemplateByID jobTemplateID [],
         Call.AssociateCredentials jobTemplateID [("id", Value.int credentialID)] []]⟩

/-- The function `resourceJobTemplateCredentialsRead`. -/
def resourceJobTemplateCredentialsRead {σ : Type} (m : AWX σ)
    (d : JobTemplateCredentialsData) (s : σ) : Outcome σ JobTemplateCredentialsData :=
  let awxService := m.JobTemplateService
  let jobTemplateID := d.job_template_id.asInt
  let credentialID := d.credential_id.asInt
  let params : Params := [("id", Itoa credentialID)]
  match awxService.ListCredentials jobTemplateID params s with
  | (Except.error err, s1) =>
    ⟨buildDiagnosticsMessage "Get: Fail to fetch Credential"
        "Fail to find the credential for job template ID %d and credential ID %d got: %s"
        [Value.int jobTemplateID, Value.int credentialID, Value.str err.Error],
      d, s1, [Call.ListCredentials jobTemplateID params]⟩
  | (Except.ok creds, s1) =>
    if creds.length > 1 then
      ⟨buildDiagnosticsMessage "Get: find more than one Element"
          "The Query Returns more than one Credentials, %d" [Value.int creds.length],
        d, s1, [Call.ListCredentials jobTemplateID params]⟩
    else if creds.length = 0 then
      ⟨[], { d with Id := "",
                    job_template_id := SetTypeInt d.job_template_id (Value.str ""),
                    credential_id := SetTypeInt d.credential_id (Value.str "") },
        s1, [Call.ListCredentials jobTemplateID params]⟩
    else
      ⟨[], d, s1, [Call.ListCredentials jobTemplateID params]⟩

/-- The function `resourceJobTemplateCredentialsDelete`. -/
def resourceJobTemplateCredentialsDelete {σ : Type} (m : AWX σ)
    (d : JobTemplateCredentialsData) (s : σ) : Outcome σ JobTemplateCredentialsData :=
  let awxService := m.JobTemplateService
  let jobTemplateID := d.job_template_id.asInt
  match awxService.GetJobTemplateByID jobTemplateID [] s with
  | (Except.error err, s1) =>
    ⟨buildDiagNotFoundFail "job template" jobTemplateID err, d, s1,
      [Call.GetJobTemplateByID jobTemplateID []]⟩
  | (Except.ok res, s1) =>
    match awxService.DisAssociateCredentials res.ID
        [("id", Value.int d.credential_id.asInt)] [] s1 with
    | (Except.error err, s2) =>
      ⟨buildDiagDeleteFail "JobTemplate DisAssociateCredentials"
          ("DisAssociateCredentials " ++ Itoa d.credential_id.asInt ++ ", from JobTemplateID "
            ++ Itoa d.job_template_id.asInt ++ " got " ++ err.Error ++ " "),
        d, s2,
        [Call.GetJobTemplateByID jobTemplateID [],
         Call.DisAssociateCredentials res.ID [("id", Value.int d.credential_id.asInt)] []]⟩
    | (Except.ok _, s2) =>
      ⟨[], { d with Id := "" }, s2,
        [Call.GetJobTemplateByID jobTemplateID [],
         Call.DisAssociateCredentials res.ID [("id", Value.int d.credential_id.asInt)] []]⟩

/-- The function `resourceJobTemplateCredentialsStateImport`: the imported resource data,
or the error. -/
def resourceJobTemplateCredentialsStateImport (d : JobTemplateCredentialsData) :
    Except Formatted (List JobTemplateCredentialsData) :=
  let idParts := Split d.Id '-'
  if idParts.length != 2 || idParts.getD 0 "" == "" || idParts.getD 1 "" == "" then
    Except.error ⟨"[Error] Unexpected format of ID (%q), expected <job_template_id>-<credential_id>",
      [Value.str d.Id]⟩
  else
    let r1 := convertStrToNumeric "job template credential import" (idParts.getD 0 "")
    if HasError r1.2 then
      Except.error ⟨"[Error] can't parse job template ID", []⟩
    else
      let r2 := convertStrToNumeric "job template credential import" (idParts.getD 1 "")
      if HasError r2.2 then
        Except.error ⟨"[Error] can't parse credential ID", []⟩
      else
        Except.ok [{ d with job_template_id := SetTypeInt d.job_template_id (Value.int r1.1),
                            credential_id := SetTypeInt d.credential_id (Value.int r2.1) }]

/-! ## `data_source_credential.go` -/

/-- The assignment `params[key] = value` on a `map[string]string`. -/
def setParam (params : Params) (key value : String) : Params :=
  params.filter (fun kv => kv.1 != key) ++ [(key, value)]

/-- The resource data of the data source `awx_credential`: the identity and the four
attributes of its schema, `id` a `TypeInt`, the others `TypeString`. -/
structure CredentialData where
  Id : String
  id : Value
  name : Value
  username : Value
  kind : Value
  deriving DecidableEq, Repr

/-- The query parameters that `dataSourceCredentialByIDRead` builds from the selectors
`name` and `id`. -/
def credentialParams (d : CredentialData) : Params :=
  let params : Params := []
  let params := if d.name.isSet then setParam params "name" d.name.asString else params
  let params := if d.id.isSet then setParam params "id" (Itoa d.id.asInt) else params
  params

/-- The function `dataSourceCredentialByIDRead`. -/
def dataSourceCredentialByIDRead {σ : Type} (m : AWX σ) (d : CredentialData) (s : σ) :
    Outcome σ CredentialData :=
  let params := credentialParams d
  if params.length = 0 then
    ⟨buildDiagnosticsMessage "Get: Missing Parameters"
        "Please use one of the selectors (name or id)" [], d, s, []⟩
  else
    match m.CredentialsService.ListCredentials params s with
    | (Except.error err, s1) =>
      ⟨buildDiagnosticsMessage "Get: Fail to fetch Credential"
          "Fail to find the credential got: %s" [Value.str err.Error],
        d, s1, [Call.CredentialsList params]⟩
    | (Except.ok creds, s1) =>
      if creds.length > 1 then
        ⟨buildDiagnosticsMessage "Get: find more than one Element"
            "The Query Returns more than one Credentials, %d" [Value.int creds.length],
          d, s1, [Call.CredentialsList params]⟩
      else
        match creds with
        | [] =>
          ⟨buildDiagnosticsMessage "Get: find no Element"
              "The Query Returns no Credentials, %d" [Value.int creds.length],
            d, s1, [Call.CredentialsList params]⟩
        | cred :: _ =>
          ⟨[],
            { Id := Itoa cred.ID,
              id := SetTypeInt d.id (Value.int cred.ID),
              name := SetTypeString d.name (Value.str cred.Name),
              username := SetTypeString d.username (cred.Inputs.index "username"),
              kind := SetTypeString d.kind (Value.str cred.Kind) },
            s1, [Call.CredentialsList params]⟩

/-! ## `resource_survey.go` -/

/-- The array `expectedList` of the validator of the attribute `type`. -/
def expectedList : List String :=
  ["text", "multiplechoice", "multiselect", "password", "integer", "float"]

/-- The loop of the validator over the expected values still to be compared. -/
def validateTypeLoop (value : String) : List String → Diagnostics
  | [] =>
    [⟨Severity.Error, "wrong value",
      ⟨"%q is not %q", Value.str value :: expectedList.map Value.str⟩⟩]
  | expected :: rest => if value = expected then [] else validateTypeLoop value rest

/-- The `ValidateDiagFunc` of the attribute `type` of a survey question. Its only inputs
are the value and the attribute path (unused); no client is in scope. -/
def specTypeValidateDiagFunc (v : String) : Diagnostics :=
  validateTypeLoop v expectedList

/-- The value under one key of a set element: the schema reader fills every key of an
element with an `int`, a `string` or a `bool` (the zero value or the `Default` when the
configuration leaves it out), never with `nil`. -/
inductive Prim where
  | int (n : Int) : Prim
  | str (s : String) : Prim
  | bool (b : Bool) : Prim
  deriving DecidableEq, Repr

/-- One element of the set attribute `spec`: a `map[string]interface{}` with the nine keys
of the element schema. -/
structure SpecEntry where
  question_name : Prim
  question_description : Prim
  required : Prim
  variable_ : Prim
  type : Prim
  min : Prim
  max : Prim
  default : Prim
  choices : Prim
  deriving DecidableEq, Repr

/-- The type `*schema.Set` of the attribute `spec`: its elements, each one once. The order
in which `List()` returns them is the order of `elems`. -/
structure SchemaSet where
  elems : List SpecEntry
  nodup : elems.Nodup

instance : DecidableEq SchemaSet := fun a b =>
  if h : a.elems = b.elems then
    isTrue (by
      cases a
      cases b
      cases h
      rfl)
  else isFalse (fun e => h (congrArg SchemaSet.elems e))

/-- The set that `d.Set("spec", items)` builds from a list: identical elements collapse
into one. -/
def SchemaSet.ofList (items : List SpecEntry) : SchemaSet :=
  ⟨items.dedup, List.nodup_dedup items⟩

/-- The method `List()` of `*schema.Set`. -/
def SchemaSet.List (set : SchemaSet) : List SpecEntry := set.elems

/-- The resource data of `awx_job_template_survey`: the identity and the four attributes
of its schema, `job_template_id` a `TypeInt`, `name` and `description` `TypeString`,
`spec` a `TypeSet`. -/
structure SurveyData where
  Id : String
  job_template_id : Value
  name : Value
  description : Value
  spec : SchemaSet
  deriving DecidableEq

/-- The library function `mapstructure.Decode` into a `string` field: strict about the
type. -/
def decodeString (name : String) : Prim → Except error String
  | .str s => Except.ok s
  | _ => Except.error (error.Other (name ++ " expected type string"))

/-- The library function `mapstructure.Decode` into a `bool` field. -/
def decodeBool (name : String) : Prim → Except error Bool
  | .bool b => Except.ok b
  | _ => Except.error (error.Other (name ++ " expected type bool"))

/-- The library function `mapstructure.Decode` into an `int` field. -/
def decodeInt (name : String) : Prim → Except error Int
  | .int n => Except.ok n
  | _ => Except.error (error.Other (name ++ " expected type int"))

/-- The call `mapstructure.Decode(inputMap, &surveySpec)`: each field of the question is
decoded from the key of its attribute. -/
def decodeSurveySpec (inputMap : SpecEntry) : Except error SurveySpec := do
  let questionName ← decodeString "question_name" inputMap.question_name
  let questionDescription ← decodeString "question_description" inputMap.question_description
  let required ← decodeBool "required" inputMap.required
  let variable_ ← decodeString "variable" inputMap.variable_
  let type ← decodeString "type" inputMap.type
  let min ← decodeInt "min" inputMap.min
  let max ← decodeInt "max" inputMap.max
  let default ← decodeString "default" inputMap.default
  let choices ← decodeString "choices" inputMap.choices
  pure ⟨questionName, questionDescription, required, variable_, type, min, max, default,
    choices⟩

/-- The call `mapstructure.Decode(spec, &surveySpec)` into a `map[string]interface{}`: one
key per field of the question. -/
def encodeSurveySpec (spec : SurveySpec) : Except error SpecEntry :=
  Except.ok
    { question_name := Prim.str spec.QuestionName
      question_description := Prim.str spec.QuestionDescription
      required := Prim.bool spec.Required
      variable_ := Prim.str spec.Variable
      type := Prim.str spec.Type_
      min := Prim.int spec.Min
      max := Prim.int spec.Max
      default := Prim.str spec.Default
      choices := Prim.str spec.Choices }

/-- The loop of `getSurveySpecs` over the elements still to decode, `surveySpecs` holding
the questions decoded so far. -/
def getSurveySpecsLoop : List SpecEntry → List SurveySpec → Except error (List SurveySpec)
  | [], surveySpecs => Except.ok surveySpecs
  | input :: rest, surveySpecs =>
    match decodeSurveySpec input with
    | Except.error err => Except.error err
    | Except.ok surveySpec => getSurveySpecsLoop rest (surveySpecs ++ [surveySpec])

/-- The function `getSurveySpecs`. -/
def getSurveySpecs (d : SurveyData) : Except error (List SurveySpec) :=
  getSurveySpecsLoop d.spec.List []

/-- The loop of `setSurveyResourceData` over the questions still to decode. -/
def setSurveyLoop : List SurveySpec → List SpecEntry → Except error (List SpecEntry)
  | [], surveySpecs => Except.ok surveySpecs
  | spec :: rest, surveySpecs =>
    match encodeSurveySpec spec with
    | Except.error err => Except.error err
    | Except.ok surveySpec => setSurveyLoop rest (surveySpecs ++ [surveySpec])

/-- The function `setSurveyResourceData`: the resource data as the function leaves it
(`name` and `description` are written before the loop) and the error it returns, if any.
The list written to `spec` holds maps with the keys and types of the element schema, which
the set accepts. -/
def setSurveyResourceData (d : SurveyData) (r : Survey) : SurveyData × Option error :=
  let d1 := { d with name := SetTypeString d.name (Value.str r.Name),
                     description := SetTypeString d.description (Value.str r.Description) }
  match setSurveyLoop r.Spec [] with
  | Except.error err => (d1, some err)
  | Except.ok surveySpecs => ({ d1 with spec := SchemaSet.ofList surveySpecs }, none)

/-- Modelled from the spec: `convertStateIDToNummeric` (the provider's `utils.go`, absent
here). Returns the local identity as a number and no diagnostics when it is numeric, an
error diagnostic otherwise. -/
def convertStateIDToNummeric (operation : String) (d : SurveyData) : Int × Diagnostics :=
  match parseInt d.Id with
  | some n => (n, [])
  | none =>
    (0, buildDiagnosticsMessage operation "Value in State %s is not numeric" [Value.str d.Id])

/-- The function `resourceSurveyRead`. -/
def resourceSurveyRead {σ : Type} (m : AWX σ) (d : SurveyData) (s : σ) :
    Outcome σ SurveyData :=
  let awxService := m.JobTemplateService
  let r := convertStateIDToNummeric "Survey Read" d
  if HasError r.2 then ⟨r.2, d, s, []⟩
  else
    let id := r.1
    match awxService.GetSurveyByJobTemplateId id [] s with
    | (Except.error err, s1) =>
      ⟨buildDiagNotFoundFail "job template" id err, d, s1,
        [Call.GetSurveyByJobTemplateId id []]⟩
    | (Except.ok res, s1) =>
      match setSurveyResourceData
          { d with job_template_id := SetTypeInt d.job_template_id (Value.int id) } res with
      | (d2, some err) =>
        ⟨buildDiagNotFoundFail "job template" id err, d2, s1,
          [Call.GetSurveyByJobTemplateId id []]⟩
      | (d2, none) => ⟨[], d2, s1, [Call.GetSurveyByJobTemplateId id []]⟩

/-- The function `resourceSurveyCreate`. -/
def resourceSurveyCreate {σ : Type} (m : AWX σ) (d : SurveyData) (s : σ) :
    Outcome σ SurveyData :=
  let awxService := m.JobTemplateService
  match getSurveySpecs d with
  | Except.error err =>
    ⟨[⟨Severity.Error, "Unable to add surveys",
        ⟨"JobTemplate with id %d, failed to add survey: %s",
          [Value.int d.job_template_id.asInt, Value.str err.Error]⟩⟩], d, s, []⟩
  | Except.ok surveySpecs =>
    let survey : Survey := ⟨d.name.asString, d.description.asString, surveySpecs⟩
    match awxService.PostSurvey d.job_template_id.asInt survey [] s with
    | (Except.error err, s1) =>
      ⟨[⟨Severity.Error, "Unable to add surveys",
          ⟨"JobTemplate with id %d, failed to add survey: %s",
            [Value.int d.job_template_id.asInt, Value.str err.Error]⟩⟩], d, s1,
        [Call.PostSurvey d.job_template_id.asInt survey []]⟩
    | (Except.ok _, s1) =>
      let r := resourceSurveyRead m { d with Id := Itoa d.job_template_id.asInt } s1
      ⟨r.diags, r.d, r.server, Call.PostSurvey d.job_template_id.asInt survey [] :: r.calls⟩

/-- The function `resourceSurveyUpdate`. -/
def resourceSurveyUpdate {σ : Type} (m : AWX σ) (d : SurveyData) (s : σ) :
    Outcome σ SurveyData :=
  resourceSurveyCreate m d s

/-- The function `resourceSurveyDelete`. -/
def resourceSurveyDelete {σ : Type} (m : AWX σ) (d : SurveyData) (s : σ) :
    Outcome σ SurveyData :=
  let awxService := m.JobTemplateService
  let id := d.job_template_id.asInt
  match awxService.DeleteSurvey id s with
  | (Except.error err, s1) =>
    ⟨buildDiagNotFoundFail "job template" id err, d, s1, [Call.DeleteSurvey id]⟩
  | (Except.ok _, s1) =>
    ⟨[], { d with name := SetTypeString d.name Value.null,
                  description := SetTypeString d.description Value.null,
                  spec := SchemaSet.ofList [], Id := "" }, s1,
      [Call.DeleteSurvey id]⟩

/-! ## Predicates of the specification -/

/-- A numeric segment, in the words of the specification: it reads as a decimal integer,
an optional sign followed by at least one character, all of them decimal digits. -/
def isNumeric (s : String) : Bool :=
  match s.toList with
  | '-' :: cs => !cs.isEmpty && cs.all Char.isDigit
  | '+' :: cs => !cs.isEmpty && cs.all Char.isDigit
  | cs => !cs.isEmpty && cs.all Char.isDigit

/-- A well-formed composite identity, in the words of the specification: splitting on the
delimiter yields exactly two segments, both non-empty and both numeric. -/
def wellFormedIdentity (s : String) : Bool :=
  match Split s '-' with
  | [a, b] => a != "" && b != "" && isNumeric a && isNumeric b
  | _ => false

/-! ## Clients for the concrete scenarios -/

/-- A client without server state that answers every call with a fixed response: `lookup`
for the job-template lookup, `link` for associate, disassociate and delete-survey, `creds`
for both credential lists, `survey` for the survey read; a posted survey is accepted. -/
def fixedClient (lookup : Except error JobTemplate) (link : Except error Unit)
    (creds : Except error (List Credential)) (survey : Except error Survey) : AWX Unit :=
  { CredentialsService := { ListCredentials := fun _ s => (creds, s) }
    JobTemplateService :=
      { GetJobTemplateByID := fun _ _ s => (lookup, s)
        AssociateCredentials := fun _ _ _ s => (link, s)
        DisAssociateCredentials := fun _ _ _ s => (link, s)
        ListCredentials := fun _ _ s => (creds, s)
        PostSurvey := fun _ _ _ s => (Except.ok (), s)
        GetSurveyByJobTemplateId := fun _ _ s => (survey, s)
        DeleteSurvey := fun _ s => (link, s) } }

/-- A server that keeps the survey last posted for each job template, returns it on read,
and reports `NotFound` for a survey it does not hold; every job template and every link
exists. -/
def storingClient : AWX (List (Int × Survey)) :=
  { CredentialsService := { ListCredentials := fun _ s => (Except.ok [], s) }
    JobTemplateService :=
      { GetJobTemplateByID := fun id _ s => (Except.ok ⟨id⟩, s)
        AssociateCredentials := fun _ _ _ s => (Except.ok (), s)
        DisAssociateCredentials := fun _ _ _ s => (Except.ok (), s)
        ListCredentials := fun _ _ s => (Except.ok [], s)
        PostSurvey := fun id survey _ s =>
          (Except.ok (), (id, survey) :: s.filter (fun kv => kv.1 != id))
        GetSurveyByJobTemplateId := fun id _ s =>
          match s.find? (fun kv => kv.1 == id) with
          | some kv => (Except.ok kv.2, s)
          | none => (Except.error (error.NotFound "survey not found"), s)
        DeleteSurvey := fun id s =>
          if s.any (fun kv => kv.1 == id) then (Except.ok (), s.filter (fun kv => kv.1 != id))
          else (Except.error (error.NotFound "survey not found"), s) } }

/-! ## Lemmas on `Itoa`, `parseInt` and `Split` -/

theorem digitChar_spec : ∀ k, k < 10 →
    (Nat.digitChar k).isDigit = true ∧ (Nat.digitChar k).toNat - 48 = k ∧
      Nat.digitChar k ≠ '-' ∧ Nat.digitChar k ≠ '+' := by
  decide

theorem natDigits_append (fuel : Nat) : ∀ (n : Nat) (acc : List Char),
    natDigits fuel n acc = natDigits fuel n [] ++ acc := by
  induction fuel with
  | zero => intro n acc; simp [natDigits]
  | succ fuel ih =>
    intro n acc
    by_cases h : n / 10 = 0
    · simp [natDigits, h]
    · simp only [natDigits, h, if_false]
      rw [ih (n / 10) (Nat.digitChar (n % 10) :: acc), ih (n / 10) [Nat.digitChar (n % 10)]]
      simp

theorem natDigits_succ (fuel n : Nat) :
    natDigits (fuel + 1) n [] =
      if n / 10 = 0 then [Nat.digitChar (n % 10)]
      else natDigits fuel (n / 10) [] ++ [Nat.digitChar (n % 10)] := by
  by_cases h : n / 10 = 0
  · simp [natDigits, h]
  · simp only [natDigits, h, if_false]
    exact natDigits_append fuel (n / 10) _

theorem natDigits_ne_nil (fuel n : Nat) : natDigits (fuel + 1) n [] ≠ [] := by
  rw [natDigits_succ]
  split <;> simp

theorem natDigits_digit (fuel : Nat) : ∀ (n : Nat) (c : Char), c ∈ natDigits fuel n [] →
    c.isDigit = true ∧ c ≠ '-' ∧ c ≠ '+' := by
  induction fuel with
  | zero => intro n c hc; simp [natDigits] at hc
  | succ fuel ih =>
    intro n c hc
    have hd := digitChar_spec (n % 10) (Nat.mod_lt n (by decide))
    rw [natDigits_succ] at hc
    split at hc
    · simp only [List.mem_singleton] at hc
      subst hc
      exact ⟨hd.1, hd.2.2.1, hd.2.2.2⟩
    · rcases List.mem_append.mp hc with h | h
      · exact ih (n / 10) c h
      · simp only [List.mem_singleton] at h
        subst h
        exact ⟨hd.1, hd.2.2.1, hd.2.2.2⟩

theorem parseDigits_snoc (l : List Char) : ∀ (acc : Nat) (c : Char), c.isDigit = true →
    parseDigits (l ++ [c]) acc = (parseDigits l acc).map (fun v => 10 * v + (c.toNat - 48)) := by
  induction l with
  | nil => intro acc c hc; simp [parseDigits, hc]
  | cons x xs ih =>
    intro acc c hc
    by_cases hx : x.isDigit = true
    · simp [parseDigits, hx, ih _ c hc]
    · simp [parseDigits, hx]

theorem parseDigits_natDigits (fuel : Nat) : ∀ n : Nat, n < fuel →
    parseDigits (natDigits fuel n []) 0 = some n := by
  induction fuel with
  | zero => intro n hn; omega
  | succ fuel ih =>
    intro n hn
    have hd := digitChar_spec (n % 10) (Nat.mod_lt n (by decide))
    rw [natDigits_succ]
    split
    · rename_i h
      simp only [parseDigits, hd.1, if_true, hd.2.1]
      congr 1
      omega
    · rename_i h
      rw [parseDigits_snoc _ _ _ hd.1, ih (n / 10) (by omega), hd.2.1]
      simp only [Option.map_some']
      congr 1
      omega

theorem parseNat_natDigits (n : Nat) : parseNat (natDigits (n + 1) n []) = some n := by
  simp [parseNat, natDigits_ne_nil, parseDigits_natDigits (n + 1) n (Nat.lt_succ_self n)]

theorem natDigits_head (fuel n : Nat) :
    ∃ c cs, natDigits (fuel + 1) n [] = c :: cs ∧ c ≠ '-' ∧ c ≠ '+' := by
  cases h : natDigits (fuel + 1) n [] with
  | nil => exact absurd h (natDigits_ne_nil fuel n)
  | cons c cs =>
    have hc := natDigits_digit (fuel + 1) n c (by rw [h]; exact List.mem_cons_self c cs)
    exact ⟨c, cs, rfl, hc.2.1, hc.2.2⟩

theorem parseInt_of_unsigned (s : String) (c : Char) (cs : List Char)
    (hs : s.toList = c :: cs) (h1 : c ≠ '-') (h2 : c ≠ '+') :
    parseInt s = (parseNat (c :: cs)).map (fun (n : Nat) => (n : Int)) := by
  unfold parseInt
  rw [hs]
  split
  · rename_i heq
    simp only [List.cons.injEq] at heq
    exact absurd heq.1 h1
  · rename_i heq
    simp only [List.cons.injEq] at heq
    exact absurd heq.1 h2
  · rfl

/-- Reading back what `strconv.Itoa` printed gives the number. -/
theorem parseInt_Itoa (n : Int) : parseInt (Itoa n) = some n := by
  cases n with
  | ofNat m =>
    obtain ⟨c, cs, hcs, h1, h2⟩ := natDigits_head m m
    have hs : (Itoa (Int.ofNat m)).toList = c :: cs := by
      simp [Itoa, itoaChars, String.toList, hcs]
    rw [parseInt_of_unsigned _ c cs hs h1 h2, ← hcs, parseNat_natDigits]
    rfl
  | negSucc m =>
    have hs : (Itoa (Int.negSucc m)).toList = '-' :: natDigits (m + 2) (m + 1) [] := by
      simp [Itoa, itoaChars, String.toList]
    unfold parseInt
    rw [hs]
    simp only [parseNat_natDigits (m + 1), Option.map_some']
    rfl

theorem splitChars_ne_nil (sep : Char) (l : List Char) : splitChars sep l ≠ [] := by
  cases l with
  | nil => simp [splitChars]
  | cons c cs =>
    unfold splitChars
    split
    · simp
    · split <;> simp

theorem splitChars_of_not_mem (sep : Char) (l : List Char) (h : sep ∉ l) :
    splitChars sep l = [l] := by
  induction l with
  | nil => rfl
  | cons c cs ih =>
    have hc : ¬ c = sep := fun e => h (by simp [e])
    have hcs : sep ∉ cs := fun e => h (List.mem_cons_of_mem c e)
    simp [splitChars, hc, ih hcs]

theorem splitChars_append (sep : Char) (a b : List Char) (h : sep ∉ a) :
    splitChars sep (a ++ sep :: b) = a :: splitChars sep b := by
  induction a with
  | nil => simp [splitChars]
  | cons c cs ih =>
    have hc : ¬ c = sep := fun e => h (by simp [e])
    have hcs : sep ∉ cs := fun e => h (List.mem_cons_of_mem c e)
    simp [splitChars, hc, ih hcs]

/-- The function `strings.Split` returns one piece more than there are separators. -/
theorem splitChars_length (sep : Char) (l : List Char) :
    (splitChars sep l).length = l.count sep + 1 := by
  induction l with
  | nil => rfl
  | cons c cs ih =>
    by_cases hc : c = sep
    · subst hc
      simp [splitChars, ih]
    · have hne : ¬ (c == sep) = true := by simpa using hc
      unfold splitChars
      rw [if_neg hc, List.count_cons, if_neg hne]
      cases hsp : splitChars sep cs with
      | nil => exact absurd hsp (splitChars_ne_nil sep cs)
      | cons piece pieces => rw [hsp] at ih; simpa using ih

theorem itoaChars_no_sep (n : Int) (hn : 0 ≤ n) : '-' ∉ itoaChars n := by
  obtain ⟨k, rfl⟩ := Int.eq_ofNat_of_zero_le hn
  intro h
  exact (natDigits_digit (k + 1) k '-' h).2.1 rfl

theorem Itoa_toList (n : Int) : (Itoa n).toList = itoaChars n := rfl

theorem Itoa_ne_empty (n : Int) : Itoa n ≠ "" := by
  intro h
  have h2 : itoaChars n = [] := by
    have := congrArg String.toList h
    simpa [Itoa_toList] using this
  cases n with
  | ofNat m => exact natDigits_ne_nil m m h2
  | negSucc m => simp [itoaChars] at h2

theorem Split_encode (p c : Int) (hp : 0 ≤ p) (hc : 0 ≤ c) :
    Split (Itoa p ++ "-" ++ Itoa c) '-' = [Itoa p, Itoa c] := by
  have hl : (Itoa p ++ "-" ++ Itoa c).toList = itoaChars p ++ '-' :: itoaChars c := by
    simp [Itoa, String.toList]
  unfold Split
  rw [hl, splitChars_append _ _ _ (itoaChars_no_sep p hp),
    splitChars_of_not_mem _ _ (itoaChars_no_sep c hc)]
  rfl

theorem convertStrToNumeric_Itoa (operation : String) (n : Int) :
    convertStrToNumeric operation (Itoa n) = (n, []) := by
  simp [convertStrToNumeric, parseInt_Itoa]

/-! ## The identity codec -/

/-- C1: for all non-negative parentID and childID held by the attributes job_template_id
and credential_id, when the job-template lookup and the associate call succeed,
resourceJobTemplateCredentialsCreate sets the identity to the decimal parentID, a hyphen
and the decimal childID, and resourceJobTemplateCredentialsStateImport accepts any
resource data carrying that identity, returning it with job_template_id = parentID and
credential_id = childID. -/
theorem create_identity_import_roundtrip {σ : Type} (m : AWX σ) (s s1 s2 : σ)
    (d d0 : JobTemplateCredentialsData) (parentID childID : Int) (jt : JobTemplate)
    (hp : 0 ≤ parentID) (hc : 0 ≤ childID)
    (hparent : d.job_template_id = Value.int parentID)
    (hchild : d.credential_id = Value.int childID)
    (hlookup : m.JobTemplateService.GetJobTemplateByID parentID [] s = (Except.ok jt, s1))
    (hlink : m.JobTemplateService.AssociateCredentials parentID
      [("id", Value.int childID)] [] s1 = (Except.ok (), s2)) :
    (resourceJobTemplateCredentialsCreate m d s).d.Id = Itoa parentID ++ "-" ++ Itoa childID ∧
    resourceJobTemplateCredentialsStateImport
        { d0 with Id := (resourceJobTemplateCredentialsCreate m d s).d.Id } =
      Except.ok [{ Id := Itoa parentID ++ "-" ++ Itoa childID,
                   job_template_id := Value.int parentID,
                   credential_id := Value.int childID }] := by
  have hid : (resourceJobTemplateCredentialsCreate m d s).d.Id =
      Itoa parentID ++ "-" ++ Itoa childID := by
    simp [resourceJobTemplateCredentialsCreate, hparent, hchild, Value.asInt, hlookup, hlink]
  refine ⟨hid, ?_⟩
  rw [hid]
  simp [resourceJobTemplateCredentialsStateImport, Split_encode parentID childID hp hc,
    Itoa_ne_empty, convertStrToNumeric_Itoa, HasError, SetTypeInt]

/-- C1, the scenario of the specification: the identity created for job template 7 and
credential 9 is "7-9", and its import gives job_template_id 7 and credential_id 9. -/
theorem create_identity_import_roundtrip_witness :
    (resourceJobTemplateCredentialsCreate
        (fixedClient (Except.ok ⟨7⟩) (Except.ok ()) (Except.ok []) (Except.error (error.Other "")))
        ⟨"", Value.int 7, Value.int 9⟩ ()).d.Id = "7-9" ∧
    resourceJobTemplateCredentialsStateImport ⟨"7-9", Value.null, Value.null⟩ =
      Except.ok [⟨"7-9", Value.int 7, Value.int 9⟩] :=
  create_identity_import_roundtrip
    (fixedClient (Except.ok ⟨7⟩) (Except.ok ()) (Except.ok []) (Except.error (error.Other "")))
    () () () ⟨"", Value.int 7, Value.int 9⟩ ⟨"", Value.null, Value.null⟩ 7 9 ⟨7⟩
    (by decide) (by decide) rfl rfl rfl rfl

theorem parseDigits_isSome (cs : List Char) : ∀ acc : Nat,
    (parseDigits cs acc).isSome = cs.all Char.isDigit := by
  induction cs with
  | nil => intro acc; rfl
  | cons c cs ih =>
    intro acc
    by_cases hc : c.isDigit = true
    · simp [parseDigits, hc, ih]
    · simp [parseDigits, hc]

theorem parseNat_isSome (cs : List Char) :
    (parseNat cs).isSome = (!cs.isEmpty && cs.all Char.isDigit) := by
  cases cs with
  | nil => rfl
  | cons c cs => simp [parseNat, parseDigits_isSome]

theorem isSome_map_eq {α β : Type} (o : Option α) (f : α → β) :
    (o.map f).isSome = o.isSome := by
  cases o <;> rfl

/-- The parser accepts exactly the numeric segments. -/
theorem parseInt_isSome (s : String) : (parseInt s).isSome = isNumeric s := by
  unfold parseInt isNumeric
  split
  · rw [isSome_map_eq, parseNat_isSome]
  · rw [isSome_map_eq, parseNat_isSome]
  · rw [isSome_map_eq, parseNat_isSome]

theorem Split_length (s : String) (sep : Char) :
    (Split s sep).length = s.toList.count sep + 1 := by
  simp [Split, splitChars_length]

theorem import_ok_wellFormed (d : JobTemplateCredentialsData)
    (r : List JobTemplateCredentialsData)
    (h : resourceJobTemplateCredentialsStateImport d = Except.ok r) :
    wellFormedIdentity d.Id = true := by
  unfold resourceJobTemplateCredentialsStateImport at h
  simp only [] at h
  split at h
  · cases h
  · rename_i hcond
    simp only [Bool.or_eq_true, bne_iff_ne, ne_eq, beq_iff_eq, not_or, Decidable.not_not]
      at hcond
    obtain ⟨⟨hlen, ha⟩, hb⟩ := hcond
    obtain ⟨a, b, hab⟩ := List.length_eq_two.mp hlen
    simp only [hab, List.getD_cons_zero, List.getD_cons_succ] at ha hb h
    split at h
    · cases h
    · rename_i h1
      split at h
      · cases h
      · rename_i h2
        have na : isNumeric a = true := by
          rw [← parseInt_isSome]
          cases hpa : parseInt a with
          | none => simp [convertStrToNumeric, hpa, buildDiagnosticsMessage, HasError] at h1
          | some n => rfl
        have nb : isNumeric b = true := by
          rw [← parseInt_isSome]
          cases hpb : parseInt b with
          | none => simp [convertStrToNumeric, hpb, buildDiagnosticsMessage, HasError] at h2
          | some n => rfl
        simp [wellFormedIdentity, hab, ha, hb, na, nb]

theorem import_error_of_not_wellFormed (d : JobTemplateCredentialsData)
    (h : wellFormedIdentity d.Id = false) :
    ∃ e, resourceJobTemplateCredentialsStateImport d = Except.error e := by
  cases hr : resourceJobTemplateCredentialsStateImport d with
  | error e => exact ⟨e, rfl⟩
  | ok r =>
    have := import_ok_wellFormed d r hr
    rw [h] at this
    cases this

theorem not_wellFormed_of_two_delimiters (s : String) (h : 2 ≤ s.toList.count '-') :
    wellFormedIdentity s = false := by
  have hlen := Split_length s '-'
  unfold wellFormedIdentity
  split
  · rename_i a b hab
    rw [hab] at hlen
    simp only [List.length_cons, List.length_nil] at hlen
    omega
  · rfl

/-- C2: for every identity string, resourceJobTemplateCredentialsStateImport returns an
error, and no resource data, unless splitting on the hyphen yields exactly two segments,
both non-empty and both numeric; it fails for every string holding two or more hyphens,
and for "12", "-5", "a-b", "12-" and "abc". -/
theorem import_rejects_malformed_identity :
    (∀ d : JobTemplateCredentialsData, wellFormedIdentity d.Id = false →
      ∃ e, resourceJobTemplateCredentialsStateImport d = Except.error e) ∧
    (∀ d : JobTemplateCredentialsData, 2 ≤ d.Id.toList.count '-' →
      ∃ e, resourceJobTemplateCredentialsStateImport d = Except.error e) ∧
    (∀ d : JobTemplateCredentialsData, d.Id ∈ ["12", "-5", "a-b", "12-", "abc"] →
      ∃ e, resourceJobTemplateCredentialsStateImport d = Except.error e) := by
  refine ⟨import_error_of_not_wellFormed, ?_, ?_⟩
  · intro d h
    exact import_error_of_not_wellFormed d (not_wellFormed_of_two_delimiters d.Id h)
  · intro d h
    apply import_error_of_not_wellFormed
    simp only [List.mem_cons, List.mem_singleton, List.not_mem_nil, or_false] at h
    rcases h with h | h | h | h | h <;> rw [h] <;> decide

/-- C2, at concrete identities: "a-b" is rejected as malformed, "1-2-3" for its two
hyphens, "12-" as one of the listed strings. -/
theorem import_rejects_malformed_identity_witness :
    (∃ e, resourceJobTemplateCredentialsStateImport ⟨"a-b", Value.null, Value.null⟩ =
      Except.error e) ∧
    (∃ e, resourceJobTemplateCredentialsStateImport ⟨"1-2-3", Value.int 1, Value.int 2⟩ =
      Except.error e) ∧
    (∃ e, resourceJobTemplateCredentialsStateImport ⟨"12-", Value.null, Value.null⟩ =
      Except.error e) :=
  ⟨import_rejects_malformed_identity.1 ⟨"a-b", Value.null, Value.null⟩ (by decide),
   import_rejects_malformed_identity.2.1 ⟨"1-2-3", Value.int 1, Value.int 2⟩ (by decide),
   import_rejects_malformed_identity.2.2 ⟨"12-", Value.null, Value.null⟩ (by decide)⟩

/-! ## The credential lookup -/

theorem setParam_length_pos (params : Params) (key value : String) :
    0 < (setParam params key value).length := by
  simp [setParam]

theorem credentialParams_nonempty (d : CredentialData)
    (hsel : d.id.isSet = true ∨ d.name.isSet = true) : (credentialParams d).length ≠ 0 := by
  unfold credentialParams
  rcases hsel with h | h
  · simp only [h, if_true]
    exact Nat.ne_of_gt (setParam_length_pos _ _ _)
  · by_cases hid : d.id.isSet = true
    · simp only [hid, if_true]
      exact Nat.ne_of_gt (setParam_length_pos _ _ _)
    · simp only [h, hid, if_true]
      exact Nat.ne_of_gt (setParam_length_pos _ _ _)

/-- C3 as stated fails: the one match carries the number 5 under Inputs["username"]; the
lookup returns no diagnostic, but the TypeString attribute username rejects the number, so
username is not c.Inputs["username"]: it stays unset. -/
theorem credential_lookup_username_counterexample :
    (dataSourceCredentialByIDRead
        (fixedClient (Except.ok ⟨0⟩) (Except.ok ())
          (Except.ok [⟨42, "svc-account", "ssh", [("username", Value.int 5)]⟩])
          (Except.error (error.Other "")))
        ⟨"", Value.null, Value.str "svc-account", Value.null, Value.null⟩ ()).diags = [] ∧
    ¬ ((dataSourceCredentialByIDRead
        (fixedClient (Except.ok ⟨0⟩) (Except.ok ())
          (Except.ok [⟨42, "svc-account", "ssh", [("username", Value.int 5)]⟩])
          (Except.error (error.Other "")))
        ⟨"", Value.null, Value.str "svc-account", Value.null, Value.null⟩ ()).d.username =
      Payload.index [("username", Value.int 5)] "username") ∧
    (dataSourceCredentialByIDRead
        (fixedClient (Except.ok ⟨0⟩) (Except.ok ())
          (Except.ok [⟨42, "svc-account", "ssh", [("username", Value.int 5)]⟩])
          (Except.error (error.Other "")))
        ⟨"", Value.null, Value.str "svc-account", Value.null, Value.null⟩ ()).d.username =
      Value.null := by
  decide

/-- C3 as amended: with at least one of the selectors id and name present and a successful
upstream ListCredentials, dataSourceCredentialByIDRead is decided by the number of
matches. Exactly one match c: no diagnostics, id = c.ID, name = c.Name, kind = c.Kind,
identity = the decimal string of c.ID, and username = c.Inputs["username"] when that
entry is a string or is absent. Two or more matches: the single error diagnostic "Get:
find more than one Element" carrying the count, and the resource data is left as it was.
No match: the single error diagnostic "Get: find no Element", and the resource data is
left as it was. -/
theorem credential_lookup_by_match_count {σ : Type} (m : AWX σ) (d : CredentialData)
    (s s1 : σ) (creds : List Credential)
    (hsel : d.id.isSet = true ∨ d.name.isSet = true)
    (hlist : m.CredentialsService.ListCredentials (credentialParams d) s =
      (Except.ok creds, s1)) :
    (∀ c, creds = [c] →
      (dataSourceCredentialByIDRead m d s).diags = [] ∧
      (dataSourceCredentialByIDRead m d s).d.Id = Itoa c.ID ∧
      (dataSourceCredentialByIDRead m d s).d.id = Value.int c.ID ∧
      (dataSourceCredentialByIDRead m d s).d.name = Value.str c.Name ∧
      (dataSourceCredentialByIDRead m d s).d.kind = Value.str c.Kind ∧
      ((c.Inputs.index "username" = Value.null ∨
          ∃ u, c.Inputs.index "username" = Value.str u) →
        (dataSourceCredentialByIDRead m d s).d.username = c.Inputs.index "username")) ∧
    (2 ≤ creds.length →
      (dataSourceCredentialByIDRead m d s).diags =
        [⟨Severity.Error, "Get: find more than one Element",
          ⟨"The Query Returns more than one Credentials, %d", [Value.int creds.length]⟩⟩] ∧
      HasError (dataSourceCredentialByIDRead m d s).diags = true ∧
      (dataSourceCredentialByIDRead m d s).d = d) ∧
    (creds = [] →
      (dataSourceCredentialByIDRead m d s).diags =
        [⟨Severity.Error, "Get: find no Element",
          ⟨"The Query Returns no Credentials, %d", [Value.int 0]⟩⟩] ∧
      HasError (dataSourceCredentialByIDRead m d s).diags = true ∧
      (dataSourceCredentialByIDRead m d s).d = d) := by
  have hne := credentialParams_nonempty d hsel
  refine ⟨?_, ?_, ?_⟩
  · intro c hc
    subst hc
    refine ⟨?_, ?_, ?_, ?_, ?_, ?_⟩
    · simp [dataSourceCredentialByIDRead, hne, hlist]
    · simp [dataSourceCredentialByIDRead, hne, hlist]
    · simp [dataSourceCredentialByIDRead, hne, hlist, SetTypeInt]
    · simp [dataSourceCredentialByIDRead, hne, hlist, SetTypeString]
    · simp [dataSourceCredentialByIDRead, hne, hlist, SetTypeString]
    · intro hu
      rcases hu with hu | ⟨u, hu⟩ <;>
        simp [dataSourceCredentialByIDRead, hne, hlist, hu, SetTypeString]
  · intro h2
    have hgt : creds.length > 1 := by omega
    simp [dataSourceCredentialByIDRead, hne, hlist, hgt, buildDiagnosticsMessage, HasError]
  · intro h0
    subst h0
    simp [dataSourceCredentialByIDRead, hne, hlist, buildDiagnosticsMessage, HasError]

/-- C3 as amended, the scenario of the specification: selector name "svc-account",
upstream returns the one credential with id 42, kind "ssh" and the string "svc" under
Inputs["username"]; the lookup sets id 42, kind "ssh", username "svc" and the identity
"42". -/
theorem credential_lookup_by_match_count_witness :
    (dataSourceCredentialByIDRead
        (fixedClient (Except.ok ⟨0⟩) (Except.ok ())
          (Except.ok [⟨42, "svc-account", "ssh", [("username", Value.str "svc")]⟩])
          (Except.error (error.Other "")))
        ⟨"", Value.null, Value.str "svc-account", Value.null, Value.null⟩ ()).d.Id = "42" ∧
    (dataSourceCredentialByIDRead
        (fixedClient (Except.ok ⟨0⟩) (Except.ok ())
          (Except.ok [⟨42, "svc-account", "ssh", [("username", Value.str "svc")]⟩])
          (Except.error (error.Other "")))
        ⟨"", Value.null, Value.str "svc-account", Value.null, Value.null⟩ ()).d.id =
      Value.int 42 ∧
    (dataSourceCredentialByIDRead
        (fixedClient (Except.ok ⟨0⟩) (Except.ok ())
          (Except.ok [⟨42, "svc-account", "ssh", [("username", Value.str "svc")]⟩])
          (Except.error (error.Other "")))
        ⟨"", Value.null, Value.str "svc-account", Value.null, Value.null⟩ ()).d.kind =
      Value.str "ssh" ∧
    (dataSourceCredentialByIDRead
        (fixedClient (Except.ok ⟨0⟩) (Except.ok ())
          (Except.ok [⟨42, "svc-account", "ssh", [("username", Value.str "svc")]⟩])
          (Except.error (error.Other "")))
        ⟨"", Value.null, Value.str "svc-account", Value.null, Value.null⟩ ()).d.username =
      Value.str "svc" :=
  have h := (credential_lookup_by_match_count
    (fixedClient (Except.ok ⟨0⟩) (Except.ok ())
      (Except.ok [⟨42, "svc-account", "ssh", [("username", Value.str "svc")]⟩])
      (Except.error (error.Other "")))
    ⟨"", Value.null, Value.str "svc-account", Value.null, Value.null⟩ () ()
    [⟨42, "svc-account", "ssh", [("username", Value.str "svc")]⟩]
    (Or.inr (by decide)) rfl).1 ⟨42, "svc-account", "ssh", [("username", Value.str "svc")]⟩ rfl
  ⟨h.2.1, h.2.2.1, h.2.2.2.2.1, h.2.2.2.2.2 (Or.inr ⟨"svc", rfl⟩)⟩

/-- C4: when neither the id selector nor the name selector is present,
dataSourceCredentialByIDRead returns the single error diagnostic "Get: Missing
Parameters" whatever the client and the server state are, issues no upstream call, leaves
the server state alone and writes no attribute and no identity. -/
theorem credential_lookup_missing_selector {σ : Type} (m : AWX σ) (d : CredentialData)
    (s : σ) (hid : d.id.isSet = false) (hname : d.name.isSet = false) :
    (dataSourceCredentialByIDRead m d s).diags =
      [⟨Severity.Error, "Get: Missing Parameters",
        ⟨"Please use one of the selectors (name or id)", []⟩⟩] ∧
    HasError (dataSourceCredentialByIDRead m d s).diags = true ∧
    (dataSourceCredentialByIDRead m d s).calls = [] ∧
    (dataSourceCredentialByIDRead m d s).server = s ∧
    (dataSourceCredentialByIDRead m d s).d = d := by
  simp [dataSourceCredentialByIDRead, credentialParams, hid, hname, buildDiagnosticsMessage,
    HasError]

/-- C4, at a concrete state: no selector is set (id holds the zero value, name the empty
string) and the server would answer with a credential; the lookup fails all the same,
without a call. -/
theorem credential_lookup_missing_selector_witness :
    HasError (dataSourceCredentialByIDRead
        (fixedClient (Except.ok ⟨0⟩) (Except.ok ()) (Except.ok [⟨42, "a", "ssh", []⟩])
          (Except.error (error.Other "")))
        ⟨"", Value.int 0, Value.str "", Value.null, Value.null⟩ ()).diags = true ∧
    (dataSourceCredentialByIDRead
        (fixedClient (Except.ok ⟨0⟩) (Except.ok ()) (Except.ok [⟨42, "a", "ssh", []⟩])
          (Except.error (error.Other "")))
        ⟨"", Value.int 0, Value.str "", Value.null, Value.null⟩ ()).calls = [] :=
  have h := credential_lookup_missing_selector
    (fixedClient (Except.ok ⟨0⟩) (Except.ok ()) (Except.ok [⟨42, "a", "ssh", []⟩])
      (Except.error (error.Other "")))
    ⟨"", Value.int 0, Value.str "", Value.null, Value.null⟩ () (by decide) (by decide)
  ⟨h.2.1, h.2.2.1⟩

/-! ## The association reconciler -/

/-- C5, the code at the failing input: the association "7-9" holds job_template_id 7 and
credential_id 9 and the upstream list has no match. The read returns no diagnostic and
clears the identity, but both attributes are TypeInt and reject the empty string written
to them: they still hold 7 and 9, and are not blank. -/
theorem association_read_zero_matches_keeps_foreign_keys :
    (resourceJobTemplateCredentialsRead
        (fixedClient (Except.ok ⟨7⟩) (Except.ok ()) (Except.ok []) (Except.error (error.Other "")))
        ⟨"7-9", Value.int 7, Value.int 9⟩ ()).diags = [] ∧
    (resourceJobTemplateCredentialsRead
        (fixedClient (Except.ok ⟨7⟩) (Except.ok ()) (Except.ok []) (Except.error (error.Other "")))
        ⟨"7-9", Value.int 7, Value.int 9⟩ ()).d = ⟨"", Value.int 7, Value.int 9⟩ ∧
    (resourceJobTemplateCredentialsRead
        (fixedClient (Except.ok ⟨7⟩) (Except.ok ()) (Except.ok []) (Except.error (error.Other "")))
        ⟨"7-9", Value.int 7, Value.int 9⟩ ()).calls =
      [Call.ListCredentials 7 [("id", "9")]] := by
  decide

/-- C8: with job_template_id p and credential_id c, when the job-template lookup and the
associate call succeed, resourceJobTemplateCredentialsCreate calls associate with parent
p and payload id: c and sets the identity to the decimal p, a hyphen and the decimal c;
resourceJobTemplateCredentialsDelete on the resulting state, when the lookup returns job
template p and the disassociate call succeeds, calls disassociate with p and payload
id: c and clears the identity. -/
theorem association_create_then_delete {σ : Type} (m : AWX σ)
    (d : JobTemplateCredentialsData) (s s1 s2 s3 s4 : σ) (p c : Int) (jt res : JobTemplate)
    (hparent : d.job_template_id = Value.int p) (hchild : d.credential_id = Value.int c)
    (hlookup : m.JobTemplateService.GetJobTemplateByID p [] s = (Except.ok jt, s1))
    (hlink : m.JobTemplateService.AssociateCredentials p [("id", Value.int c)] [] s1 =
      (Except.ok (), s2))
    (hlookup2 : m.JobTemplateService.GetJobTemplateByID p [] s2 = (Except.ok res, s3))
    (hres : res.ID = p)
    (hunlink : m.JobTemplateService.DisAssociateCredentials p [("id", Value.int c)] [] s3 =
      (Except.ok (), s4)) :
    (resourceJobTemplateCredentialsCreate m d s).diags = [] ∧
    (resourceJobTemplateCredentialsCreate m d s).calls =
      [Call.GetJobTemplateByID p [], Call.AssociateCredentials p [("id", Value.int c)] []] ∧
    (resourceJobTemplateCredentialsCreate m d s).d.Id = Itoa p ++ "-" ++ Itoa c ∧
    (resourceJobTemplateCredentialsCreate m d s).server = s2 ∧
    (resourceJobTemplateCredentialsDelete m (resourceJobTemplateCredentialsCreate m d s).d
      s2).diags = [] ∧
    (resourceJobTemplateCredentialsDelete m (resourceJobTemplateCredentialsCreate m d s).d
      s2).calls =
      [Call.GetJobTemplateByID p [], Call.DisAssociateCredentials p [("id", Value.int c)] []] ∧
    (resourceJobTemplateCredentialsDelete m (resourceJobTemplateCredentialsCreate m d s).d
      s2).d.Id = "" := by
  have hcreate : resourceJobTemplateCredentialsCreate m d s =
      ⟨[], { d with Id := Itoa p ++ "-" ++ Itoa c }, s2,
        [Call.GetJobTemplateByID p [],
         Call.AssociateCredentials p [("id", Value.int c)] []]⟩ := by
    simp [resourceJobTemplateCredentialsCreate, hparent, hchild, Value.asInt, hlookup, hlink]
  rw [hcreate]
  subst hres
  simp [resourceJobTemplateCredentialsDelete, hparent, hchild, Value.asInt, hlookup2, hunlink]

/-- C8, the scenario of the specification: job_template_id 7 and credential_id 9 give the
identity "7-9"; the delete of the same calls disassociate with 7 and payload id: 9 and
clears the identity. -/
theorem association_create_then_delete_witness :
    (resourceJobTemplateCredentialsCreate storingClient ⟨"", Value.int 7, Value.int 9⟩
      []).d.Id = "7-9" ∧
    (resourceJobTemplateCredentialsDelete storingClient ⟨"7-9", Value.int 7, Value.int 9⟩
      []).calls =
      [Call.GetJobTemplateByID 7 [], Call.DisAssociateCredentials 7 [("id", Value.int 9)] []] ∧
    (resourceJobTemplateCredentialsDelete storingClient ⟨"7-9", Value.int 7, Value.int 9⟩
      []).d.Id = "" :=
  have h := association_create_then_delete storingClient ⟨"", Value.int 7, Value.int 9⟩
    [] [] [] [] [] 7 9 ⟨7⟩ ⟨7⟩ rfl rfl rfl rfl rfl rfl rfl
  ⟨h.2.2.1, h.2.2.2.2.2.1, h.2.2.2.2.2.2⟩

/-- The delete operations, case by case on the answer of the upstream delete call. -/
theorem association_delete_cases {σ : Type} (m : AWX σ) (d : JobTemplateCredentialsData)
    (s s1 s2 : σ) (res : JobTemplate) (r : Except error Unit)
    (hlookup : m.JobTemplateService.GetJobTemplateByID d.job_template_id.asInt [] s =
      (Except.ok res, s1))
    (hunlink : m.JobTemplateService.DisAssociateCredentials res.ID
      [("id", Value.int d.credential_id.asInt)] [] s1 = (r, s2)) :
    (∀ err, r = Except.error err →
      HasError (resourceJobTemplateCredentialsDelete m d s).diags = true ∧
      (resourceJobTemplateCredentialsDelete m d s).d = d) ∧
    (r = Except.ok () →
      (resourceJobTemplateCredentialsDelete m d s).diags = [] ∧
      (resourceJobTemplateCredentialsDelete m d s).d.Id = "") := by
  constructor
  · intro err hr
    subst hr
    simp [resourceJobTemplateCredentialsDelete, hlookup, hunlink, buildDiagDeleteFail,
      buildDiagnosticsMessage, HasError]
  · intro hr
    subst hr
    simp [resourceJobTemplateCredentialsDelete, hlookup, hunlink]

theorem survey_delete_cases {σ : Type} (m : AWX σ) (d : SurveyData) (s s1 : σ)
    (r : Except error Unit)
    (hdelete : m.JobTemplateService.DeleteSurvey d.job_template_id.asInt s = (r, s1)) :
    (∀ err, r = Except.error err →
      HasError (resourceSurveyDelete m d s).diags = true ∧ (resourceSurveyDelete m d s).d = d) ∧
    (r = Except.ok () →
      (resourceSurveyDelete m d s).diags = [] ∧ (resourceSurveyDelete m d s).d.Id = "") := by
  constructor
  · intro err hr
    subst hr
    simp [resourceSurveyDelete, hdelete, buildDiagNotFoundFail, buildDiagnosticsMessage,
      HasError]
  · intro hr
    subst hr
    simp [resourceSurveyDelete, hdelete]

/-- C6 as stated fails: the upstream delete call answers with a NotFound error, for the
association 7-9 (disassociate) and for the survey of job template 7 (delete-survey on a
server that holds no survey); each Delete returns an error diagnostic and the identity is
still set. -/
theorem delete_not_found_counterexample :
    (fixedClient (Except.ok ⟨7⟩) (Except.error (error.NotFound "not found")) (Except.ok [])
        (Except.error (error.Other ""))).JobTemplateService.DisAssociateCredentials 7
        [("id", Value.int 9)] [] () = (Except.error (error.NotFound "not found"), ()) ∧
    ¬ (HasError (resourceJobTemplateCredentialsDelete
          (fixedClient (Except.ok ⟨7⟩) (Except.error (error.NotFound "not found"))
            (Except.ok []) (Except.error (error.Other "")))
          ⟨"7-9", Value.int 7, Value.int 9⟩ ()).diags = false ∧
        (resourceJobTemplateCredentialsDelete
          (fixedClient (Except.ok ⟨7⟩) (Except.error (error.NotFound "not found"))
            (Except.ok []) (Except.error (error.Other "")))
          ⟨"7-9", Value.int 7, Value.int 9⟩ ()).d.Id = "") ∧
    storingClient.JobTemplateService.DeleteSurvey 7 [] =
      (Except.error (error.NotFound "survey not found"), []) ∧
    ¬ (HasError (resourceSurveyDelete storingClient
          ⟨"7", Value.int 7, Value.str "", Value.str "", SchemaSet.ofList []⟩ []).diags = false ∧
        (resourceSurveyDelete storingClient
          ⟨"7", Value.int 7, Value.str "", Value.str "", SchemaSet.ofList []⟩ []).d.Id = "") := by
  refine ⟨rfl, ?_, rfl, ?_⟩ <;> decide

/-- C6 as amended: when the upstream delete call (DisAssociateCredentials after a
successful job-template lookup, DeleteSurvey) returns an error, a NotFound error included,
the Delete operation returns an error diagnostic and leaves the resource data, the
identity with it, unchanged; when the call succeeds, the operation returns no diagnostic
and clears the identity. -/
theorem delete_clears_identity_only_on_success {σ : Type} (m : AWX σ)
    (da : JobTemplateCredentialsData) (ds : SurveyData) (s s1 s2 t1 : σ) (res : JobTemplate)
    (ra rs : Except error Unit)
    (hlookup : m.JobTemplateService.GetJobTemplateByID da.job_template_id.asInt [] s =
      (Except.ok res, s1))
    (hunlink : m.JobTemplateService.DisAssociateCredentials res.ID
      [("id", Value.int da.credential_id.asInt)] [] s1 = (ra, s2))
    (hdelete : m.JobTemplateService.DeleteSurvey ds.job_template_id.asInt s = (rs, t1)) :
    ((∀ err, ra = Except.error err →
        HasError (resourceJobTemplateCredentialsDelete m da s).diags = true ∧
        (resourceJobTemplateCredentialsDelete m da s).d = da) ∧
      (ra = Except.ok () →
        (resourceJobTemplateCredentialsDelete m da s).diags = [] ∧
        (resourceJobTemplateCredentialsDelete m da s).d.Id = "")) ∧
    ((∀ err, rs = Except.error err →
        HasError (resourceSurveyDelete m ds s).diags = true ∧
        (resourceSurveyDelete m ds s).d = ds) ∧
      (rs = Except.ok () →
        (resourceSurveyDelete m ds s).diags = [] ∧ (resourceSurveyDelete m ds s).d.Id = "")) :=
  ⟨association_delete_cases m da s s1 s2 res ra hlookup hunlink,
   survey_delete_cases m ds s t1 rs hdelete⟩

/-- C6 as amended, at concrete states: both upstream delete calls answer NotFound; the
delete of the association 7-9 keeps its resource data, identity "7-9" included, and the
delete of the survey of job template 7 returns an error diagnostic. -/
theorem delete_clears_identity_only_on_success_witness :
    (resourceJobTemplateCredentialsDelete
        (fixedClient (Except.ok ⟨7⟩) (Except.error (error.NotFound "not found"))
          (Except.ok []) (Except.error (error.Other "")))
        ⟨"7-9", Value.int 7, Value.int 9⟩ ()).d = ⟨"7-9", Value.int 7, Value.int 9⟩ ∧
    HasError (resourceSurveyDelete
        (fixedClient (Except.ok ⟨7⟩) (Except.error (error.NotFound "not found"))
          (Except.ok []) (Except.error (error.Other "")))
        ⟨"7", Value.int 7, Value.str "", Value.str "", SchemaSet.ofList []⟩ ()).diags = true :=
  have h := delete_clears_identity_only_on_success
    (fixedClient (Except.ok ⟨7⟩) (Except.error (error.NotFound "not found"))
      (Except.ok []) (Except.error (error.Other "")))
    ⟨"7-9", Value.int 7, Value.int 9⟩ ⟨"7", Value.int 7, Value.str "", Value.str "", SchemaSet.ofList []⟩
    () () () () ⟨7⟩ (Except.error (error.NotFound "not found"))
    (Except.error (error.NotFound "not found")) rfl rfl rfl
  ⟨(h.1.1 (error.NotFound "not found") rfl).2, (h.2.1 (error.NotFound "not found") rfl).1⟩

/-! ## Identity on failure -/

theorem association_create_error_keeps_data {σ : Type} (m : AWX σ)
    (d : JobTemplateCredentialsData) (s : σ)
    (h : HasError (resourceJobTemplateCredentialsCreate m d s).diags = true) :
    (resourceJobTemplateCredentialsCreate m d s).d = d := by
  unfold resourceJobTemplateCredentialsCreate at h ⊢
  simp only [] at h ⊢
  split
  · rfl
  · rename_i h1
    rw [h1] at h
    simp only [] at h
    split
    · rfl
    · rename_i h2
      rw [h2] at h
      simp [HasError] at h

theorem association_read_error_keeps_data {σ : Type} (m : AWX σ)
    (d : JobTemplateCredentialsData) (s : σ)
    (h : HasError (resourceJobTemplateCredentialsRead m d s).diags = true) :
    (resourceJobTemplateCredentialsRead m d s).d = d := by
  unfold resourceJobTemplateCredentialsRead at h ⊢
  simp only [] at h ⊢
  split
  · rfl
  · rename_i h1
    rw [h1] at h
    simp only [] at h
    split
    · rfl
    · rename_i hgt
      rw [if_neg hgt] at h
      split
      · rename_i h0
        rw [if_pos h0] at h
        simp [HasError] at h
      · rfl

theorem association_delete_error_keeps_data {σ : Type} (m : AWX σ)
    (d : JobTemplateCredentialsData) (s : σ)
    (h : HasError (resourceJobTemplateCredentialsDelete m d s).diags = true) :
    (resourceJobTemplateCredentialsDelete m d s).d = d := by
  unfold resourceJobTemplateCredentialsDelete at h ⊢
  simp only [] at h ⊢
  split
  · rfl
  · rename_i h1
    rw [h1] at h
    simp only [] at h
    split
    · rfl
    · rename_i h2
      rw [h2] at h
      simp [HasError] at h

theorem credential_lookup_error_keeps_data {σ : Type} (m : AWX σ) (d : CredentialData)
    (s : σ) (h : HasError (dataSourceCredentialByIDRead m d s).diags = true) :
    (dataSourceCredentialByIDRead m d s).d = d := by
  unfold dataSourceCredentialByIDRead at h ⊢
  simp only [] at h ⊢
  split
  · rfl
  · rename_i hp
    rw [if_neg hp] at h
    split
    · rfl
    · rename_i h1
      rw [h1] at h
      simp only [] at h
      split
      · rfl
      · rename_i hgt
        rw [if_neg hgt] at h
        split
        · rfl
        · simp [HasError] at h

theorem survey_read_keeps_identity {σ : Type} (m : AWX σ) (d : SurveyData) (s : σ) :
    (resourceSurveyRead m d s).d.Id = d.Id := by
  unfold resourceSurveyRead
  simp only []
  split
  · rfl
  · split
    · rfl
    · unfold setSurveyResourceData
      simp only []
      split <;> (rename_i heq; split at heq <;> cases heq) <;> rfl

theorem survey_delete_error_keeps_data {σ : Type} (m : AWX σ) (d : SurveyData) (s : σ)
    (h : HasError (resourceSurveyDelete m d s).diags = true) :
    (resourceSurveyDelete m d s).d = d := by
  unfold resourceSurveyDelete at h ⊢
  simp only [] at h ⊢
  split
  · rfl
  · rename_i h1
    rw [h1] at h
    simp [HasError] at h

theorem survey_create_decode_error {σ : Type} (m : AWX σ) (d : SurveyData) (s : σ)
    (err : error) (hdecode : getSurveySpecs d = Except.error err) :
    (resourceSurveyCreate m d s).d = d := by
  simp [resourceSurveyCreate, hdecode]

theorem survey_create_post_error {σ : Type} (m : AWX σ) (d : SurveyData) (s s1 : σ)
    (surveySpecs : List SurveySpec) (err : error)
    (hdecode : getSurveySpecs d = Except.ok surveySpecs)
    (hpost : m.JobTemplateService.PostSurvey d.job_template_id.asInt
      ⟨d.name.asString, d.description.asString, surveySpecs⟩ [] s = (Except.error err, s1)) :
    (resourceSurveyCreate m d s).d = d := by
  simp [resourceSurveyCreate, hdecode, hpost]

theorem survey_create_posted_identity {σ : Type} (m : AWX σ) (d : SurveyData) (s s1 : σ)
    (surveySpecs : List SurveySpec)
    (hdecode : getSurveySpecs d = Except.ok surveySpecs)
    (hpost : m.JobTemplateService.PostSurvey d.job_template_id.asInt
      ⟨d.name.asString, d.description.asString, surveySpecs⟩ [] s = (Except.ok (), s1)) :
    (resourceSurveyCreate m d s).d.Id = Itoa d.job_template_id.asInt := by
  simp only [resourceSurveyCreate, hdecode, hpost]
  exact survey_read_keeps_identity m _ s1

/-- C7 as stated fails: PostSurvey succeeds for job template 7 and the read-back that
follows it fails; resourceSurveyCreate returns an error diagnostic, and the identity,
unset before, is "7" after. -/
theorem survey_create_commits_identity_counterexample :
    ¬ (HasError (resourceSurveyCreate
          (fixedClient (Except.ok ⟨7⟩) (Except.ok ()) (Except.ok [])
            (Except.error (error.Other "read failed")))
          ⟨"", Value.int 7, Value.str "survey", Value.str "", SchemaSet.ofList []⟩ ()).diags = true →
        (resourceSurveyCreate
          (fixedClient (Except.ok ⟨7⟩) (Except.ok ()) (Except.ok [])
            (Except.error (error.Other "read failed")))
          ⟨"", Value.int 7, Value.str "survey", Value.str "", SchemaSet.ofList []⟩ ()).d.Id = "") := by
  decide

/-- C7 as amended: for every behaviour of the upstream client, if an operation returns an
error diagnostic then the local identity after it equals the local identity before it,
for Create, Read and Delete of the association reconciler (it has no Update), for Read
and Delete of the survey reconciler and for the credential lookup. resourceSurveyCreate
and resourceSurveyUpdate leave the identity as it was when they fail before or in
PostSurvey (a decoding error, a PostSurvey error); once PostSurvey has succeeded they set
the identity to the decimal job_template_id before the read-back, and that is the
identity after the operation whatever the read-back returns, an error diagnostic
included. -/
theorem error_keeps_identity_unless_survey_posted {σ : Type} (m : AWX σ) (s : σ)
    (da : JobTemplateCredentialsData) (dc : CredentialData) (ds : SurveyData) :
    (HasError (resourceJobTemplateCredentialsCreate m da s).diags = true →
      (resourceJobTemplateCredentialsCreate m da s).d.Id = da.Id) ∧
    (HasError (resourceJobTemplateCredentialsRead m da s).diags = true →
      (resourceJobTemplateCredentialsRead m da s).d.Id = da.Id) ∧
    (HasError (resourceJobTemplateCredentialsDelete m da s).diags = true →
      (resourceJobTemplateCredentialsDelete m da s).d.Id = da.Id) ∧
    (HasError (dataSourceCredentialByIDRead m dc s).diags = true →
      (dataSourceCredentialByIDRead m dc s).d.Id = dc.Id) ∧
    (HasError (resourceSurveyRead m ds s).diags = true →
      (resourceSurveyRead m ds s).d.Id = ds.Id) ∧
    (HasError (resourceSurveyDelete m ds s).diags = true →
      (resourceSurveyDelete m ds s).d.Id = ds.Id) ∧
    (∀ err, getSurveySpecs ds = Except.error err →
      HasError (resourceSurveyCreate m ds s).diags = true ∧
      (resourceSurveyCreate m ds s).d.Id = ds.Id ∧
      (resourceSurveyUpdate m ds s).d.Id = ds.Id) ∧
    (∀ surveySpecs err s1, getSurveySpecs ds = Except.ok surveySpecs →
      m.JobTemplateService.PostSurvey ds.job_template_id.asInt
        ⟨ds.name.asString, ds.description.asString, surveySpecs⟩ [] s =
          (Except.error err, s1) →
      HasError (resourceSurveyCreate m ds s).diags = true ∧
      (resourceSurveyCreate m ds s).d.Id = ds.Id ∧
      (resourceSurveyUpdate m ds s).d.Id = ds.Id) ∧
    (∀ surveySpecs s1, getSurveySpecs ds = Except.ok surveySpecs →
      m.JobTemplateService.PostSurvey ds.job_template_id.asInt
        ⟨ds.name.asString, ds.description.asString, surveySpecs⟩ [] s = (Except.ok (), s1) →
      (resourceSurveyCreate m ds s).d.Id = Itoa ds.job_template_id.asInt ∧
      (resourceSurveyUpdate m ds s).d.Id = Itoa ds.job_template_id.asInt) := by
  refine ⟨?_, ?_, ?_, ?_, ?_, ?_, ?_, ?_, ?_⟩
  · intro h
    rw [association_create_error_keeps_data m da s h]
  · intro h
    rw [association_read_error_keeps_data m da s h]
  · intro h
    rw [association_delete_error_keeps_data m da s h]
  · intro h
    rw [credential_lookup_error_keeps_data m dc s h]
  · intro _
    exact survey_read_keeps_identity m ds s
  · intro h
    rw [survey_delete_error_keeps_data m ds s h]
  · intro err hdecode
    have hd := survey_create_decode_error m ds s err hdecode
    refine ⟨?_, by rw [hd], by rw [resourceSurveyUpdate, hd]⟩
    simp [resourceSurveyCreate, hdecode, HasError]
  · intro surveySpecs err s1 hdecode hpost
    have hd := survey_create_post_error m ds s s1 surveySpecs err hdecode hpost
    refine ⟨?_, by rw [hd], by rw [resourceSurveyUpdate, hd]⟩
    simp [resourceSurveyCreate, hdecode, hpost, HasError]
  · intro surveySpecs s1 hdecode hpost
    exact ⟨survey_create_posted_identity m ds s s1 surveySpecs hdecode hpost,
      survey_create_posted_identity m ds s s1 surveySpecs hdecode hpost⟩

/-- C7 as amended, at concrete states: the associate call for 7 and 9 fails, so the
identity stays unset; PostSurvey for job template 7 succeeds and the read-back fails, so
resourceSurveyCreate returns an error diagnostic and the identity is "7". -/
theorem error_keeps_identity_unless_survey_posted_witness :
    (resourceJobTemplateCredentialsCreate
        (fixedClient (Except.ok ⟨7⟩) (Except.error (error.Other "refused")) (Except.ok [])
          (Except.error (error.Other "read failed")))
        ⟨"", Value.int 7, Value.int 9⟩ ()).d.Id = "" ∧
    HasError (resourceSurveyCreate
        (fixedClient (Except.ok ⟨7⟩) (Except.error (error.Other "refused")) (Except.ok [])
          (Except.error (error.Other "read failed")))
        ⟨"", Value.int 7, Value.str "survey", Value.str "", SchemaSet.ofList []⟩
        ()).diags = true ∧
    (resourceSurveyCreate
        (fixedClient (Except.ok ⟨7⟩) (Except.error (error.Other "refused")) (Except.ok [])
          (Except.error (error.Other "read failed")))
        ⟨"", Value.int 7, Value.str "survey", Value.str "", SchemaSet.ofList []⟩
        ()).d.Id = "7" :=
  have h := error_keeps_identity_unless_survey_posted
    (fixedClient (Except.ok ⟨7⟩) (Except.error (error.Other "refused")) (Except.ok [])
      (Except.error (error.Other "read failed")))
    () ⟨"", Value.int 7, Value.int 9⟩ ⟨"", Value.null, Value.null, Value.null, Value.null⟩
    ⟨"", Value.int 7, Value.str "survey", Value.str "", SchemaSet.ofList []⟩
  ⟨h.1 (by decide), by decide, (h.2.2.2.2.2.2.2.2 [] () rfl rfl).1⟩

/-! ## The survey reconciler -/

theorem validateTypeLoop_nil_iff (value : String) (l : List String) :
    validateTypeLoop value l = [] ↔ value ∈ l := by
  induction l with
  | nil => simp [validateTypeLoop]
  | cons expected rest ih =>
    by_cases h : value = expected
    · simp [validateTypeLoop, h]
    · simp [validateTypeLoop, h, ih]

theorem validateTypeLoop_hasError_iff (value : String) (l : List String) :
    HasError (validateTypeLoop value l) = true ↔ value ∉ l := by
  induction l with
  | nil => simp [validateTypeLoop, HasError]
  | cons expected rest ih =>
    by_cases h : value = expected
    · simp [validateTypeLoop, h, HasError]
    · simp [validateTypeLoop, h, ih]

/-- C9: for every string v, the ValidateDiagFunc of the survey attribute type returns an
error diagnostic if and only if v is none of "text", "multiplechoice", "multiselect",
"password", "integer", "float", compared exactly (so "Text" is rejected), and returns no
diagnostic if and only if v is one of the six; the function has the value as its only
input, no client. -/
theorem survey_type_validation (v : String) :
    (HasError (specTypeValidateDiagFunc v) = true ↔
      v ∉ ["text", "multiplechoice", "multiselect", "password", "integer", "float"]) ∧
    (specTypeValidateDiagFunc v = [] ↔
      v ∈ ["text", "multiplechoice", "multiselect", "password", "integer", "float"]) ∧
    HasError (specTypeValidateDiagFunc "Text") = true :=
  ⟨validateTypeLoop_hasError_iff v expectedList, validateTypeLoop_nil_iff v expectedList,
    by decide⟩

theorem except_bind_ok {ε α β : Type} (x : Except ε α) (f : α → Except ε β) (b : β)
    (h : (x >>= f) = Except.ok b) : ∃ a, x = Except.ok a ∧ f a = Except.ok b := by
  cases x with
  | error e => cases h
  | ok a => exact ⟨a, rfl, h⟩

theorem decodeString_ok (name : String) (v : Prim) (r : String)
    (h : decodeString name v = Except.ok r) : v = Prim.str r := by
  cases v <;> simp [decodeString] at h
  rw [h]

theorem decodeBool_ok (name : String) (v : Prim) (r : Bool)
    (h : decodeBool name v = Except.ok r) : v = Prim.bool r := by
  cases v <;> simp [decodeBool] at h
  rw [h]

theorem decodeInt_ok (name : String) (v : Prim) (r : Int)
    (h : decodeInt name v = Except.ok r) : v = Prim.int r := by
  cases v <;> simp [decodeInt] at h
  rw [h]

/-- Decoding a question back into a map gives the element it was decoded from. -/
theorem encode_of_decode (e : SpecEntry) (q : SurveySpec)
    (h : decodeSurveySpec e = Except.ok q) : encodeSurveySpec q = Except.ok e := by
  obtain ⟨a1, a2, a3, a4, a5, a6, a7, a8, a9⟩ := e
  unfold decodeSurveySpec at h
  obtain ⟨b1, h1, h⟩ := except_bind_ok _ _ _ h
  obtain ⟨b2, h2, h⟩ := except_bind_ok _ _ _ h
  obtain ⟨b3, h3, h⟩ := except_bind_ok _ _ _ h
  obtain ⟨b4, h4, h⟩ := except_bind_ok _ _ _ h
  obtain ⟨b5, h5, h⟩ := except_bind_ok _ _ _ h
  obtain ⟨b6, h6, h⟩ := except_bind_ok _ _ _ h
  obtain ⟨b7, h7, h⟩ := except_bind_ok _ _ _ h
  obtain ⟨b8, h8, h⟩ := except_bind_ok _ _ _ h
  obtain ⟨b9, h9, h⟩ := except_bind_ok _ _ _ h
  have hq : q = ⟨b1, b2, b3, b4, b5, b6, b7, b8, b9⟩ := by
    cases h
    rfl
  subst hq
  simp only [] at h1 h2 h3 h4 h5 h6 h7 h8 h9
  rw [decodeString_ok _ _ _ h1, decodeString_ok _ _ _ h2, decodeBool_ok _ _ _ h3,
    decodeString_ok _ _ _ h4, decodeString_ok _ _ _ h5, decodeInt_ok _ _ _ h6,
    decodeInt_ok _ _ _ h7, decodeString_ok _ _ _ h8, decodeString_ok _ _ _ h9]
  rfl

/-- The two loops: a list of elements that all decode gives as many questions, and decoding
those questions back gives the elements, in the same order. -/
theorem survey_loops (l : List SpecEntry) : ∀ (acc r : List SurveySpec),
    getSurveySpecsLoop l acc = Except.ok r →
    ∃ qs, r = acc ++ qs ∧ qs.length = l.length ∧
      ∀ acc2 : List SpecEntry, setSurveyLoop qs acc2 = Except.ok (acc2 ++ l) := by
  induction l with
  | nil =>
    intro acc r h
    simp only [getSurveySpecsLoop, Except.ok.injEq] at h
    exact ⟨[], by simp [h], rfl, fun acc2 => by simp [setSurveyLoop]⟩
  | cons e rest ih =>
    intro acc r h
    unfold getSurveySpecsLoop at h
    split at h
    · cases h
    · rename_i q hq
      obtain ⟨qs, hr, hlen, hset⟩ := ih (acc ++ [q]) r h
      refine ⟨q :: qs, by simp [hr], by simp [hlen], ?_⟩
      intro acc2
      simp [setSurveyLoop, encode_of_decode e q hq, hset]

/-- Two sets with the same list of elements are the same set. -/
theorem SchemaSet.eq_of_elems (a b : SchemaSet) (h : a.elems = b.elems) : a = b := by
  cases a
  cases b
  cases h
  rfl

theorem SchemaSet.ofList_elems (set : SchemaSet) : SchemaSet.ofList set.elems = set :=
  SchemaSet.eq_of_elems _ _ set.nodup.dedup

theorem setSurveyResourceData_of_decoded (d d0 : SurveyData) (surveySpecs : List SurveySpec)
    (stored : Survey) (hdecode : getSurveySpecs d = Except.ok surveySpecs)
    (hstored : stored.Spec = surveySpecs) :
    setSurveyResourceData d0 stored =
      ({ d0 with name := Value.str stored.Name, description := Value.str stored.Description,
                 spec := d.spec }, none) := by
  obtain ⟨qs, hr, _, hset⟩ := survey_loops d.spec.List [] surveySpecs hdecode
  simp only [List.nil_append] at hr
  subst hr
  have hback : setSurveyLoop stored.Spec [] = Except.ok d.spec.elems := by
    rw [hstored]
    simpa [SchemaSet.List] using hset []
  simp [setSurveyResourceData, hback, SetTypeString, SchemaSet.ofList_elems]

theorem convertStateIDToNummeric_Itoa (operation : String) (d : SurveyData) (n : Int)
    (hid : d.Id = Itoa n) : convertStateIDToNummeric operation d = (n, []) := by
  simp [convertStateIDToNummeric, hid, parseInt_Itoa]

theorem survey_read_of_decoded {σ : Type} (m : AWX σ) (d d0 : SurveyData) (s3 s4 : σ)
    (n : Int) (surveySpecs : List SurveySpec) (stored : Survey)
    (hdecode : getSurveySpecs d = Except.ok surveySpecs)
    (hid : d0.Id = Itoa n)
    (hget : m.JobTemplateService.GetSurveyByJobTemplateId n [] s3 = (Except.ok stored, s4))
    (hstored : stored.Spec = surveySpecs) :
    resourceSurveyRead m d0 s3 =
      ⟨[], { Id := d0.Id, job_template_id := Value.int n, name := Value.str stored.Name,
             description := Value.str stored.Description, spec := d.spec }, s4,
        [Call.GetSurveyByJobTemplateId n []]⟩ := by
  simp [resourceSurveyRead, convertStateIDToNummeric_Itoa _ d0 n hid, HasError, hget,
    setSurveyResourceData_of_decoded d _ surveySpecs stored hdecode hstored, SetTypeInt]

/-- C10: round trip of the survey spec. For every local spec set of N elements that all
decode, getSurveySpecs builds a list of N questions, which resourceSurveyCreate submits
with PostSurvey; when the post is accepted and a read returns the stored question list,
the read-back of resourceSurveyCreate, and resourceSurveyRead on any other resource data
with the same identity, whatever its spec held before, return no diagnostic and leave a
local spec of N elements with the same field values as the ones written, compared
irrespective of order; setSurveyResourceData itself writes that spec. -/
theorem survey_spec_roundtrip {σ : Type} (m : AWX σ) (d d0 : SurveyData)
    (s s1 s2 s3 s4 : σ) (surveySpecs : List SurveySpec) (stored stored0 : Survey)
    (hdecode : getSurveySpecs d = Except.ok surveySpecs)
    (hpost : m.JobTemplateService.PostSurvey d.job_template_id.asInt
      ⟨d.name.asString, d.description.asString, surveySpecs⟩ [] s = (Except.ok (), s1))
    (hget : m.JobTemplateService.GetSurveyByJobTemplateId d.job_template_id.asInt [] s1 =
      (Except.ok stored, s2))
    (hstored : stored.Spec = surveySpecs)
    (hid0 : d0.Id = Itoa d.job_template_id.asInt)
    (hget0 : m.JobTemplateService.GetSurveyByJobTemplateId d.job_template_id.asInt [] s3 =
      (Except.ok stored0, s4))
    (hstored0 : stored0.Spec = surveySpecs) :
    surveySpecs.length = d.spec.List.length ∧
    (resourceSurveyCreate m d s).calls =
      [Call.PostSurvey d.job_template_id.asInt
          ⟨d.name.asString, d.description.asString, surveySpecs⟩ [],
       Call.GetSurveyByJobTemplateId d.job_template_id.asInt []] ∧
    (resourceSurveyCreate m d s).diags = [] ∧
    (resourceSurveyCreate m d s).d.spec.List.length = d.spec.List.length ∧
    (resourceSurveyCreate m d s).d.spec.List.Perm d.spec.List ∧
    (resourceSurveyRead m d0 s3).diags = [] ∧
    (resourceSurveyRead m d0 s3).d.spec.List.length = d.spec.List.length ∧
    (resourceSurveyRead m d0 s3).d.spec.List.Perm d.spec.List ∧
    (setSurveyResourceData d0 stored0).1.spec.List.Perm d.spec.List ∧
    (setSurveyResourceData d0 stored0).2 = none := by
  obtain ⟨qs, hr, hlen, _⟩ := survey_loops d.spec.List [] surveySpecs hdecode
  simp only [List.nil_append] at hr
  subst hr
  have hread0 := survey_read_of_decoded m d d0 s3 s4 d.job_template_id.asInt surveySpecs
    stored0 hdecode hid0 hget0 hstored0
  have hset0 := setSurveyResourceData_of_decoded d d0 surveySpecs stored0 hdecode hstored0
  have hread := survey_read_of_decoded m d { d with Id := Itoa d.job_template_id.asInt }
    s1 s2 d.job_template_id.asInt surveySpecs stored hdecode rfl hget hstored
  have hrun : resourceSurveyCreate m d s =
      ⟨[], { Id := Itoa d.job_template_id.asInt,
             job_template_id := Value.int d.job_template_id.asInt,
             name := Value.str stored.Name, description := Value.str stored.Description,
             spec := d.spec }, s2,
        [Call.PostSurvey d.job_template_id.asInt
            ⟨d.name.asString, d.description.asString, surveySpecs⟩ [],
         Call.GetSurveyByJobTemplateId d.job_template_id.asInt []]⟩ := by
    simp only [resourceSurveyCreate, hdecode, hpost, hread]
  rw [hrun, hread0, hset0]
  exact ⟨hlen, rfl, rfl, rfl, List.Perm.refl _, rfl, rfl, List.Perm.refl _, List.Perm.refl _,
    rfl⟩

/-- C10, at a concrete spec: two questions are written for job template 7 to a server that
keeps what is posted; the read-back leaves a local spec of two elements, and a read into
resource data with the identity "7" and an empty spec leaves the same two elements. -/
theorem survey_spec_roundtrip_witness :
    (resourceSurveyCreate storingClient
        ⟨"", Value.int 7, Value.str "survey", Value.str "",
          SchemaSet.ofList
            [⟨Prim.str "Name?", Prim.str "", Prim.bool true, Prim.str "name",
              Prim.str "text", Prim.int 0, Prim.int 1024, Prim.str "", Prim.str ""⟩,
             ⟨Prim.str "Size?", Prim.str "how many", Prim.bool false, Prim.str "size",
              Prim.str "integer", Prim.int 1, Prim.int 9, Prim.str "3", Prim.str ""⟩]⟩
        []).d.spec.List.length = 2 ∧
    (resourceSurveyRead storingClient
        ⟨"7", Value.null, Value.null, Value.null, SchemaSet.ofList []⟩
        [(7, ⟨"survey", "", [⟨"Name?", "", true, "name", "text", 0, 1024, "", ""⟩,
     ⟨"Size?", "how many", false, "size", "integer", 1, 9, "3", ""⟩]⟩)]).d.spec.List.Perm
      [⟨Prim.str "Name?", Prim.str "", Prim.bool true, Prim.str "name",
              Prim.str "text", Prim.int 0, Prim.int 1024, Prim.str "", Prim.str ""⟩,
       ⟨Prim.str "Size?", Prim.str "how many", Prim.bool false, Prim.str "size",
              Prim.str "integer", Prim.int 1, Prim.int 9, Prim.str "3", Prim.str ""⟩] := by
  have h := survey_spec_roundtrip storingClient
    ⟨"", Value.int 7, Value.str "survey", Value.str "",
          SchemaSet.ofList
            [⟨Prim.str "Name?", Prim.str "", Prim.bool true, Prim.str "name",
              Prim.str "text", Prim.int 0, Prim.int 1024, Prim.str "", Prim.str ""⟩,
             ⟨Prim.str "Size?", Prim.str "how many", Prim.bool false, Prim.str "size",
              Prim.str "integer", Prim.int 1, Prim.int 9, Prim.str "3", Prim.str ""⟩]⟩
    ⟨"7", Value.null, Value.null, Value.null, SchemaSet.ofList []⟩
    [] [(7, ⟨"survey", "", [⟨"Name?", "", true, "name", "text", 0, 1024, "", ""⟩,
     ⟨"Size?", "how many", false, "size", "integer", 1, 9, "3", ""⟩]⟩)] [(7, ⟨"survey", "", [⟨"Name?", "", true, "name", "text", 0, 1024, "", ""⟩,
     ⟨"Size?", "how many", false, "size", "integer", 1, 9, "3", ""⟩]⟩)]
    [(7, ⟨"survey", "", [⟨"Name?", "", true, "name", "text", 0, 1024, "", ""⟩,
     ⟨"Size?", "how many", false, "size", "integer", 1, 9, "3", ""⟩]⟩)] [(7, ⟨"survey", "", [⟨"Name?", "", true, "name", "text", 0, 1024, "", ""⟩,
     ⟨"Size?", "how many", false, "size", "integer", 1, 9, "3", ""⟩]⟩)]
    [⟨"Name?", "", true, "name", "text", 0, 1024, "", ""⟩,
     ⟨"Size?", "how many", false, "size", "integer", 1, 9, "3", ""⟩]
    ⟨"survey", "", [⟨"Name?", "", true, "name", "text", 0, 1024, "", ""⟩,
     ⟨"Size?", "how many", false, "size", "integer", 1, 9, "3", ""⟩]⟩ ⟨"survey", "", [⟨"Name?", "", true, "name", "text", 0, 1024, "", ""⟩,
     ⟨"Size?", "how many", false, "size", "integer", 1, 9, "3", ""⟩]⟩
    rfl rfl rfl rfl rfl rfl rfl
  exact ⟨h.2.2.2.1, h.2.2.2.2.2.2.2.1⟩

/-! ## Further properties of the three files -/

/-- The function resourceJobTemplateCredentialsDelete passes to DisAssociateCredentials the
ID carried by the job template that the lookup returned, whatever that ID is, together
with the payload id: credential_id. -/
theorem association_delete_uses_looked_up_id {σ : Type} (m : AWX σ)
    (d : JobTemplateCredentialsData) (s s1 : σ) (res : JobTemplate)
    (hlookup : m.JobTemplateService.GetJobTemplateByID d.job_template_id.asInt [] s =
      (Except.ok res, s1)) :
    (resourceJobTemplateCredentialsDelete m d s).calls =
      [Call.GetJobTemplateByID d.job_template_id.asInt [],
       Call.DisAssociateCredentials res.ID [("id", Value.int d.credential_id.asInt)] []] := by
  unfold resourceJobTemplateCredentialsDelete
  simp only [hlookup]
  split <;> rfl

/-- The lookup of job template 7 answers with a job template whose ID is 8: disassociate
is called with 8. -/
theorem association_delete_uses_looked_up_id_witness :
    (resourceJobTemplateCredentialsDelete
        (fixedClient (Except.ok ⟨8⟩) (Except.ok ()) (Except.ok []) (Except.error (error.Other "")))
        ⟨"7-9", Value.int 7, Value.int 9⟩ ()).calls =
      [Call.GetJobTemplateByID 7 [], Call.DisAssociateCredentials 8 [("id", Value.int 9)] []] :=
  association_delete_uses_looked_up_id
    (fixedClient (Except.ok ⟨8⟩) (Except.ok ()) (Except.ok []) (Except.error (error.Other "")))
    ⟨"7-9", Value.int 7, Value.int 9⟩ () () ⟨8⟩ rfl

/-- When the job-template lookup fails, resourceJobTemplateCredentialsCreate and
resourceJobTemplateCredentialsDelete return an error diagnostic after that one call: no
associate or disassociate call is issued and the resource data is unchanged. -/
theorem association_parent_lookup_failure {σ : Type} (m : AWX σ)
    (d : JobTemplateCredentialsData) (s s1 : σ) (err : error)
    (hlookup : m.JobTemplateService.GetJobTemplateByID d.job_template_id.asInt [] s =
      (Except.error err, s1)) :
    (HasError (resourceJobTemplateCredentialsCreate m d s).diags = true ∧
      (resourceJobTemplateCredentialsCreate m d s).calls =
        [Call.GetJobTemplateByID d.job_template_id.asInt []] ∧
      (resourceJobTemplateCredentialsCreate m d s).d = d) ∧
    (HasError (resourceJobTemplateCredentialsDelete m d s).diags = true ∧
      (resourceJobTemplateCredentialsDelete m d s).calls =
        [Call.GetJobTemplateByID d.job_template_id.asInt []] ∧
      (resourceJobTemplateCredentialsDelete m d s).d = d) := by
  simp [resourceJobTemplateCredentialsCreate, resourceJobTemplateCredentialsDelete, hlookup,
    buildDiagNotFoundFail, buildDiagnosticsMessage, HasError]

/-- Job template 7 is not found: the delete of the association 7-9 fails after the lookup,
and the create issues the lookup only. -/
theorem association_parent_lookup_failure_witness :
    HasError (resourceJobTemplateCredentialsDelete
        (fixedClient (Except.error (error.NotFound "no job template")) (Except.ok ())
          (Except.ok []) (Except.error (error.Other "")))
        ⟨"7-9", Value.int 7, Value.int 9⟩ ()).diags = true ∧
    (resourceJobTemplateCredentialsCreate
        (fixedClient (Except.error (error.NotFound "no job template")) (Except.ok ())
          (Except.ok []) (Except.error (error.Other "")))
        ⟨"7-9", Value.int 7, Value.int 9⟩ ()).calls = [Call.GetJobTemplateByID 7 []] :=
  have h := association_parent_lookup_failure
    (fixedClient (Except.error (error.NotFound "no job template")) (Except.ok ())
      (Except.ok []) (Except.error (error.Other "")))
    ⟨"7-9", Value.int 7, Value.int 9⟩ () () (error.NotFound "no job template") rfl
  ⟨h.2.1, h.1.2.1⟩

/-- When the upstream list succeeds, resourceJobTemplateCredentialsRead with exactly one
match returns no diagnostic and leaves the resource data as it was; with more than one
match it returns the error diagnostic "Get: find more than one Element" carrying the
count and leaves the resource data as it was. -/
theorem association_read_one_or_many {σ : Type} (m : AWX σ) (d : JobTemplateCredentialsData)
    (s s1 : σ) (creds : List Credential)
    (hlist : m.JobTemplateService.ListCredentials d.job_template_id.asInt
      [("id", Itoa d.credential_id.asInt)] s = (Except.ok creds, s1)) :
    (creds.length = 1 →
      (resourceJobTemplateCredentialsRead m d s).diags = [] ∧
      (resourceJobTemplateCredentialsRead m d s).d = d) ∧
    (2 ≤ creds.length →
      (resourceJobTemplateCredentialsRead m d s).diags =
        [⟨Severity.Error, "Get: find more than one Element",
          ⟨"The Query Returns more than one Credentials, %d", [Value.int creds.length]⟩⟩] ∧
      (resourceJobTemplateCredentialsRead m d s).d = d) := by
  constructor
  · intro h1
    simp [resourceJobTemplateCredentialsRead, hlist, h1]
  · intro h2
    have hgt : creds.length > 1 := by omega
    simp [resourceJobTemplateCredentialsRead, hlist, hgt, buildDiagnosticsMessage]

/-- The list for the association 7-9 holds the one credential 9: the read confirms the
state. -/
theorem association_read_one_or_many_witness :
    (resourceJobTemplateCredentialsRead
        (fixedClient (Except.ok ⟨7⟩) (Except.ok ()) (Except.ok [⟨9, "key", "ssh", []⟩])
          (Except.error (error.Other "")))
        ⟨"7-9", Value.int 7, Value.int 9⟩ ()).diags = [] ∧
    (resourceJobTemplateCredentialsRead
        (fixedClient (Except.ok ⟨7⟩) (Except.ok ()) (Except.ok [⟨9, "key", "ssh", []⟩])
          (Except.error (error.Other "")))
        ⟨"7-9", Value.int 7, Value.int 9⟩ ()).d = ⟨"7-9", Value.int 7, Value.int 9⟩ :=
  (association_read_one_or_many
    (fixedClient (Except.ok ⟨7⟩) (Except.ok ()) (Except.ok [⟨9, "key", "ssh", []⟩])
      (Except.error (error.Other "")))
    ⟨"7-9", Value.int 7, Value.int 9⟩ () () [⟨9, "key", "ssh", []⟩] rfl).1 rfl

/-- When DeleteSurvey succeeds, resourceSurveyDelete returns no diagnostic, writes nil to
name and description, empties spec and clears the identity; job_template_id is kept. -/
theorem survey_delete_success {σ : Type} (m : AWX σ) (d : SurveyData) (s s1 : σ)
    (hdelete : m.JobTemplateService.DeleteSurvey d.job_template_id.asInt s =
      (Except.ok (), s1)) :
    resourceSurveyDelete m d s =
      ⟨[], { Id := "", job_template_id := d.job_template_id, name := Value.null,
             description := Value.null, spec := SchemaSet.ofList [] }, s1,
        [Call.DeleteSurvey d.job_template_id.asInt]⟩ := by
  simp [resourceSurveyDelete, hdelete, SetTypeString]

/-- The server holds the survey of job template 7: its delete clears the local state. -/
theorem survey_delete_success_witness :
    (resourceSurveyDelete storingClient
        ⟨"7", Value.int 7, Value.str "survey", Value.str "", SchemaSet.ofList []⟩
        [(7, ⟨"survey", "", []⟩)]).d =
      ⟨"", Value.int 7, Value.null, Value.null, SchemaSet.ofList []⟩ :=
  congrArg Outcome.d (survey_delete_success storingClient
    ⟨"7", Value.int 7, Value.str "survey", Value.str "", SchemaSet.ofList []⟩
    [(7, ⟨"survey", "", []⟩)] [] rfl)

/-- When an element of spec does not decode, resourceSurveyCreate returns the error
diagnostic "Unable to add surveys" carrying the job template id and the decoding error,
issues no upstream call and leaves resource data and server state as they were. -/
theorem survey_create_decode_failure {σ : Type} (m : AWX σ) (d : SurveyData) (s : σ)
    (err : error) (hdecode : getSurveySpecs d = Except.error err) :
    resourceSurveyCreate m d s =
      ⟨[⟨Severity.Error, "Unable to add surveys",
          ⟨"JobTemplate with id %d, failed to add survey: %s",
            [Value.int d.job_template_id.asInt, Value.str err.Error]⟩⟩], d, s, []⟩ := by
  simp [resourceSurveyCreate, hdecode]

/-- An element whose attribute required holds a string does not decode: nothing is posted
and the identity stays unset. -/
theorem survey_create_decode_failure_witness :
    (resourceSurveyCreate storingClient
        ⟨"", Value.int 7, Value.str "survey", Value.str "",
          SchemaSet.ofList
            [⟨Prim.str "Name?", Prim.str "", Prim.str "yes", Prim.str "name",
              Prim.str "text", Prim.int 0, Prim.int 1024, Prim.str "", Prim.str ""⟩]⟩
        []).calls = [] ∧
    (resourceSurveyCreate storingClient
        ⟨"", Value.int 7, Value.str "survey", Value.str "",
          SchemaSet.ofList
            [⟨Prim.str "Name?", Prim.str "", Prim.str "yes", Prim.str "name",
              Prim.str "text", Prim.int 0, Prim.int 1024, Prim.str "", Prim.str ""⟩]⟩
        []).d.Id = "" :=
  have h := survey_create_decode_failure storingClient
    ⟨"", Value.int 7, Value.str "survey", Value.str "",
          SchemaSet.ofList
            [⟨Prim.str "Name?", Prim.str "", Prim.str "yes", Prim.str "name",
              Prim.str "text", Prim.int 0, Prim.int 1024, Prim.str "", Prim.str ""⟩]⟩
    [] (error.Other "required expected type bool") rfl
  ⟨congrArg Outcome.calls h, congrArg (fun r => r.d.Id) h⟩

/-- The identity that resourceJobTemplateCredentialsCreate builds from a negative
job_template_id starts with a hyphen, so resourceJobTemplateCredentialsStateImport
rejects it: the round trip of the identity needs non-negative ids. -/
theorem import_rejects_negative_parent (p c : Int) (d : JobTemplateCredentialsData)
    (hp : p < 0) (hd : d.Id = Itoa p ++ "-" ++ Itoa c) :
    ∃ e, resourceJobTemplateCredentialsStateImport d = Except.error e := by
  apply import_error_of_not_wellFormed
  obtain ⟨k, rfl⟩ := Int.eq_negSucc_of_lt_zero hp
  have hl : d.Id.toList =
      '-' :: (natDigits (k + 2) (k + 1) [] ++ '-' :: itoaChars c) := by
    rw [hd]
    simp [Itoa, itoaChars, String.toList]
  apply not_wellFormed_of_two_delimiters
  rw [hl]
  simp only [List.count_cons_self, List.count_append]
  omega

/-- The identity built from job template -3 and credential 5 is not importable. -/
theorem import_rejects_negative_parent_witness :
    ∃ e, resourceJobTemplateCredentialsStateImport ⟨"-3-5", Value.null, Value.null⟩ =
      Except.error e :=
  import_rejects_negative_parent (-3) 5 ⟨"-3-5", Value.null, Value.null⟩ (by decide) (by decide)

/-- When the upstream list succeeds with no match, resourceJobTemplateCredentialsRead
returns no diagnostic and clears the identity, after the one call ListCredentials scoped
to the job template and filtered by the credential id. -/
theorem association_read_zero_matches_clears_identity {σ : Type} (m : AWX σ)
    (d : JobTemplateCredentialsData) (s s1 : σ)
    (hlist : m.JobTemplateService.ListCredentials d.job_template_id.asInt
      [("id", Itoa d.credential_id.asInt)] s = (Except.ok [], s1)) :
    (resourceJobTemplateCredentialsRead m d s).diags = [] ∧
    (resourceJobTemplateCredentialsRead m d s).d.Id = "" ∧
    (resourceJobTemplateCredentialsRead m d s).calls =
      [Call.ListCredentials d.job_template_id.asInt [("id", Itoa d.credential_id.asInt)]] := by
  simp [resourceJobTemplateCredentialsRead, hlist]

/-- The association "7-9" has no match upstream: the read clears the identity without a
diagnostic. -/
theorem association_read_zero_matches_clears_identity_witness :
    (resourceJobTemplateCredentialsRead
        (fixedClient (Except.ok ⟨7⟩) (Except.ok ()) (Except.ok []) (Except.error (error.Other "")))
        ⟨"7-9", Value.int 7, Value.int 9⟩ ()).diags = [] ∧
    (resourceJobTemplateCredentialsRead
        (fixedClient (Except.ok ⟨7⟩) (Except.ok ()) (Except.ok []) (Except.error (error.Other "")))
        ⟨"7-9", Value.int 7, Value.int 9⟩ ()).d.Id = "" :=
  have h := association_read_zero_matches_clears_identity
    (fixedClient (Except.ok ⟨7⟩) (Except.ok ()) (Except.ok []) (Except.error (error.Other "")))
    ⟨"7-9", Value.int 7, Value.int 9⟩ () () rfl
  ⟨h.1, h.2.1⟩

end Awx
